import Mathlib

set_option autoImplicit false

namespace MusicBot

/-!
Shallow embedding of the `music_bot` repository (Python) for verification.

Python runtime values that flow through the metadata dictionaries are
modelled by `Val`; Python `dict`s by insertion-ordered association lists
(`PDict`).  `dget` is Python's `dict.get(k)` (returning `None` for a
missing key), `dgetOpt` distinguishes a missing key from a key stored
with value `None` (needed for `k in d` checks and `d.get(k, default)`).
-/

mutual

/-- Model of a Python value as stored in the metadata dictionaries:
`None`, `int`, `str`, `bytes`, `list`. -/
inductive Val where
  | vnone : Val
  | vint (n : Int) : Val
  | vstr (s : String) : Val
  | vbytes (bs : List Nat) : Val
  | vlist (l : ValList) : Val
deriving DecidableEq

/-- A Python list of values (mutual with `Val`). -/
inductive ValList where
  | nil : ValList
  | cons (hd : Val) (tl : ValList) : ValList
deriving DecidableEq

end

namespace Val

/-- Python truthiness (`bool(v)`): `None`, `0`, `""`, `b""` and `[]` are falsy. -/
def truthy : Val → Bool
  | vnone => false
  | vint n => n != 0
  | vstr s => s != ""
  | vbytes bs => !bs.isEmpty
  | vlist .nil => false
  | vlist (.cons _ _) => true

/-- Python `a or b`: returns `a` when `a` is truthy, else `b`. -/
def pyOr (a b : Val) : Val := if a.truthy then a else b

end Val

/-- A Python `dict` with string keys, modelled as an insertion-ordered
association list (a real `dict` never holds a duplicate key). -/
abbrev PDict : Type := List (String × Val)

namespace PDict

/-- Lookup that distinguishes a missing key from a stored `None`
(Python `k in d` / `d.get(k, default)`). -/
def dgetOpt : PDict → String → Option Val
  | [], _ => none
  | kv :: rest, k => if kv.1 = k then some kv.2 else dgetOpt rest k

/-- Python `d.get(k)`: value of the first entry with key `k`, `None` if absent. -/
def dget (d : PDict) (k : String) : Val :=
  (dgetOpt d k).getD Val.vnone

/-- Python `d.get(k, default)`. -/
def dgetD (d : PDict) (k : String) (default : Val) : Val :=
  (dgetOpt d k).getD default

/-- Python `d[k] = v`: replace the entry with key `k` in place, or append. -/
def dset : PDict → String → Val → PDict
  | [], k, v => [(k, v)]
  | kv :: rest, k, v => if kv.1 = k then (k, v) :: rest else kv :: dset rest k v

/-- Python `d.pop(k, None)` / `del d[k]`: remove the key. -/
def dremove : PDict → String → PDict
  | [], _ => []
  | kv :: rest, k => if kv.1 = k then dremove rest k else kv :: dremove rest k

/-- Python `k in d`. -/
def dmem (d : PDict) (k : String) : Bool :=
  (dgetOpt d k).isSome

end PDict

open Val PDict

deriving instance DecidableEq for Except

/-- Embedding of `TagLookup._merge` (taglookup.py):
```
for k, v in src.items():
    if v is None:
        continue
    if not dst.get(k):
        dst[k] = v
```
Copies `src[k]` into `dst` when `src[k]` is not `None` and `dst[k]` is falsy.
`mergeStep` is the loop body for one `(k, v)` item. -/
def mergeStep (d : PDict) (kv : String × Val) : PDict :=
  if kv.2 = Val.vnone then d
  else if (dget d kv.1).truthy then d
  else dset d kv.1 kv.2

/-- `TagLookup._merge(dst, src)`: fold of `mergeStep` over the items of `src`. -/
def merge (dst src : PDict) : PDict :=
  src.foldl mergeStep dst

/-- Embedding of the hint-application loop in `TagLookup.lookup` (step 2):
```
for k, v in hints.items():
    if v and (not self.cfg.prefer_existing or not meta.get(k)):
        meta[k] = v
```
-/
def hintStep (preferExisting : Bool) (m : PDict) (kv : String × Val) : PDict :=
  if kv.2.truthy && (!preferExisting || !(dget m kv.1).truthy) then dset m kv.1 kv.2
  else m

/-- The whole hint loop of `TagLookup.lookup`. -/
def applyHints (preferExisting : Bool) (m hints : PDict) : PDict :=
  hints.foldl (hintStep preferExisting) m

/-! Python string/number helpers used by `main.py` (`_first_int`,
`_year_from_date`) and the embedders. -/

/-- Python regex `\s` (whitespace class used by `_NUM_RE`). -/
def isPySpace (c : Char) : Bool :=
  c == ' ' || c == '\t' || c == '\n' || c == '\r' || c == '\x0b' || c == '\x0c'

/-- Numeric value of a list of decimal digit characters. -/
def digitsToNat (cs : List Char) : Nat :=
  cs.foldl (fun acc c => acc * 10 + (c.toNat - '0'.toNat)) 0

/-- `_NUM_RE = re.compile(r"^\s*(\d+)")`: optional leading whitespace, then a
nonempty run of digits; returns the digit group's value. -/
def numReMatch (s : String) : Option Nat :=
  let cs := s.toList.dropWhile isPySpace
  let ds := cs.takeWhile Char.isDigit
  if ds.isEmpty then none else some (digitsToNat ds)

/-- Python `int(s)` on a string: strips whitespace, allows one leading sign,
then requires a nonempty run of digits.  (CPython also accepts underscore
digit grouping, not modelled; it cannot arise from the tag values here.) -/
def pyIntOfString (s : String) : Option Int :=
  let cs := (s.toList.dropWhile isPySpace).reverse.dropWhile isPySpace |>.reverse
  let core : List Char → Option Int := fun ds =>
    if ds.isEmpty || !ds.all Char.isDigit then none else some (digitsToNat ds : Int)
  match cs with
  | '-' :: ds => (core ds).map (fun n => -n)
  | '+' :: ds => core ds
  | ds => core ds

/-- ASCII lower-casing of one character (Python `str.lower()` on the
ASCII file suffixes handled here; non-ASCII casing is not modelled). -/
def pyCharLower (c : Char) : Char :=
  if 'A' ≤ c ∧ c ≤ 'Z' then Char.ofNat (c.toNat + 32) else c

/-- Python `s.lower()`. -/
def pyLower (s : String) : String :=
  String.mk (s.toList.map pyCharLower)

mutual

/-- Python `str(v)` (`repr` is used for elements nested inside a list). -/
def pyToString : Val → String
  | .vnone => "None"
  | .vint n => toString n
  | .vstr s => s
  | .vbytes bs => "b'" ++ String.mk (bs.map Char.ofNat) ++ "'"
  | .vlist l => "[" ++ pyReprList l ++ "]"

/-- Python `repr(v)` (quote-escaping inside string literals is not
modelled; no claim depends on the repr text of a string). -/
def pyReprV : Val → String
  | .vstr s => "'" ++ s ++ "'"
  | .vnone => "None"
  | .vint n => toString n
  | .vbytes bs => "b'" ++ String.mk (bs.map Char.ofNat) ++ "'"
  | .vlist l => "[" ++ pyReprList l ++ "]"

/-- Comma-joined `repr`s of the elements of a Python list. -/
def pyReprList : ValList → String
  | .nil => ""
  | .cons h .nil => pyReprV h
  | .cons h t => pyReprV h ++ ", " ++ pyReprList t

end

/-- Python `repr(v)`. -/
def pyRepr (v : Val) : String := pyReprV v

/-- Python `int(v)` on an arbitrary value: ints pass through, strings and
bytes are parsed, everything else raises (modelled as `none`). -/
def pyIntOfVal : Val → Option Int
  | .vint n => some n
  | .vstr s => pyIntOfString s
  | .vbytes bs => pyIntOfString (String.mk (bs.map Char.ofNat))
  | _ => none

/-- Embedding of `_first_int` (main.py): coerce common tag representations
(`'05'`, `'5/12'`, `['5']`, `None`) to an int.
```
if val is None: return None
if isinstance(val, int): return val
if isinstance(val, (list, tuple)) and val: return _first_int(val[0])
if isinstance(val, str):
    m = _NUM_RE.match(val)
    if m: return int(m.group(1))   # digits: int() cannot fail here
try: return int(val)
except Exception: return None
```
-/
def firstInt : Val → Option Int
  | .vnone => none
  | .vint n => some n
  | .vlist (.cons h _) => firstInt h
  | .vstr s =>
    match numReMatch s with
    | some n => some (n : Int)
    | none => pyIntOfString s
  | .vlist .nil => none
  | .vbytes bs => pyIntOfVal (.vbytes bs)

/-- `_DATE_RE = re.compile(r"^(\d{4})")`: the first four characters, when all
four are digits. -/
def matchYear4 (s : String) : Option String :=
  match s.toList with
  | a :: b :: c :: d :: _ =>
    if a.isDigit && b.isDigit && c.isDigit && d.isDigit then some (String.mk [a, b, c, d])
    else none
  | _ => none

/-- Embedding of `_year_from_date` (main.py):
```
if not val: return None
if isinstance(val, (list, tuple)) and val: return _year_from_date(val[0])
s = str(val)
m = _DATE_RE.match(s)
return m.group(1) if m else None
```
-/
def yearFrom : Val → Option String
  | .vnone => none
  | .vlist .nil => none
  | .vlist (.cons h _) => yearFrom h
  | .vint n => if n = 0 then none else matchYear4 (toString n)
  | .vstr s => if s = "" then none else matchYear4 s
  | .vbytes bs => if bs.isEmpty then none else matchYear4 (pyToString (.vbytes bs))

/-- The key-dropping loop at the end of `_sanitize_for_embed`:
`if drop_key in m2 and m2[drop_key] is None: del m2[drop_key]`. -/
def dropNoneKeys : PDict → List String → PDict
  | m, [] => m
  | m, k :: ks =>
    dropNoneKeys (if dgetOpt m k = some Val.vnone then dremove m k else m) ks

/-- The artist / album-artist reconciliation of `_sanitize_for_embed`:
```
if not m2.get("artist") and m2.get("album_artist"): m2["artist"] = m2["album_artist"]
if not m2.get("album_artist") and m2.get("artist"): m2["album_artist"] = m2["artist"]
```
-/
def artistFix (m : PDict) : PDict :=
  let m2 :=
    if !(dget m "artist").truthy && (dget m "album_artist").truthy then
      dset m "artist" (dget m "album_artist")
    else m
  if !(dget m2 "album_artist").truthy && (dget m2 "artist").truthy then
    dset m2 "album_artist" (dget m2 "artist")
  else m2

/-- One number coercion of `_sanitize_for_embed`: write the coerced int
back, or `pop` the key when coercion fails. -/
def numFix (key : String) (m : PDict) : PDict :=
  match firstInt (dget m key) with
  | some n => dset m key (.vint n)
  | none => dremove m key

/-- The year derivation of `_sanitize_for_embed`:
`yr = _year_from_date(m2.get("release_date") or m2.get("date"))`, and
`if yr: m2["date"] = yr` (a falsy `yr` is skipped). -/
def dateFix (m : PDict) : PDict :=
  match yearFrom (pyOr (dget m "release_date") (dget m "date")) with
  | some y => if y ≠ "" then dset m "date" (.vstr y) else m
  | none => m

/-- The keys whose `None` values `_sanitize_for_embed` drops. -/
def sanitizeDropKeys : List String :=
  ["cover_url", "url", "tags", "description", "popularity"]

/-- Embedding of `_sanitize_for_embed` (main.py): shallow copy, artist /
album-artist reconciliation, track- and disc-number coercion, year
derivation, and dropping of `None`-valued unembeddable keys, composed in
source order. -/
def sanitizeForEmbed (meta : PDict) : PDict :=
  dropNoneKeys
    (dateFix (numFix "disc_number" (numFix "track_number" (artistFix meta))))
    sanitizeDropKeys

/-! Embedding of `TagLookup` (taglookup.py).  The AcoustID / MusicBrainz /
Cover-Art / Last.fm / Discogs network calls are effects; their outcomes are
supplied through `LookupEnv` and the pure control flow of `lookup` is
embedded faithfully. -/

/-- One release group of an AcoustID recording (`recs[0].get("releasegroups")`). -/
structure AcoustRG where
  rgid : Val

/-- One recording object in an AcoustID result (`res.get("recordings")`). -/
structure AcoustRecording where
  recid : Val
  releasegroups : List AcoustRG

/-- One entry of `resp["results"]`, carrying the fields unpacked by
`_fp_lookup` (`score, rid, title_cand, artist_cand`) and the defensive
`recordings` list.  Scores are exact rationals standing for the service's
decimal scores. -/
structure AcoustResult where
  score : Rat
  rid : Val
  title_cand : Val
  artist_cand : Val
  recordings : List AcoustRecording

/-- State of the first loop of `_fp_lookup` (`best_score`, `best_rec` and the
locally patched `artist` / `title`). -/
structure FpScanState where
  bestScore : Rat
  bestRec : Val
  artist : Val
  title : Val

/-- Body of the first loop of `_fp_lookup`:
```
if score > best_score:
    best_score = score
    best_rec = rid
    if not artist: artist = artist_cand
    if not title: title = title_cand
```
-/
def fpScanStep (st : FpScanState) (r : AcoustResult) : FpScanState :=
  if st.bestScore < r.score then
    { bestScore := r.score
      bestRec := r.rid
      artist := if st.artist.truthy then st.artist else r.artist_cand
      title := if st.title.truthy then st.title else r.title_cand }
  else st

/-- First loop of `_fp_lookup` over `resp["results"]` (`best_score` starts
at `0.0`). -/
def fpScan (artist title : Val) (results : List AcoustResult) : FpScanState :=
  results.foldl fpScanStep { bestScore := 0, bestRec := .vnone, artist := artist, title := title }

/-- Second loop of `_fp_lookup`: first result with a nonempty `recordings`
list supplies `recording_mbid` (and `release_mbid` from its first release
group), then `break`. -/
def fpExtractIds : List AcoustResult → Val × Val
  | [] => (.vnone, .vnone)
  | r :: rest =>
    match r.recordings with
    | [] => fpExtractIds rest
    | rec0 :: _ =>
      (rec0.recid,
        match rec0.releasegroups with
        | [] => .vnone
        | rg0 :: _ => rg0.rgid)

/-- Two-decimal rendering of a score, for the `f"Low AcoustID score
{best_score:.2f}"` warning.  (Python formats a binary float; scores are
modelled as exact rationals and ties are rounded up, which no claim
depends on.) -/
def fmt2 (q : Rat) : String :=
  let n : Int := (q * 100 + mkRat 1 2).floor
  let sign := if n < 0 then "-" else ""
  let m := n.natAbs
  let frac := m % 100
  let fracStr := if frac < 10 then "0" ++ toString frac else toString frac
  sign ++ toString (m / 100) ++ "." ++ fracStr

/-- Embedding of `LookupConfig` (taglookup.py). -/
structure LookupConfig where
  enable : Bool := true
  min_confidence : Rat := mkRat 1 2
  acoustid_api_key : Option String := none
  musicbrainz_useragent : String := "MusicBot/0.1 (contact@example.com)"
  lastfm_api_key : Option String := none
  discogs_user_agent : Option String := none
  discogs_token : Option String := none
  prefer_existing : Bool := true
  fetch_cover_art : Bool := true

/-- Python truthiness of an `Optional[str]` config entry. -/
def optTruthy : Option String → Bool
  | some s => s != ""
  | none => false

/-- The pure tail of `TagLookup._fp_lookup` after the two executor calls:
scan for the best score, gate on `min_confidence` (appending the low-score
warning and returning `(None, None)`), else extract the MBIDs. -/
def fpLookupPure (cfg : LookupConfig) (pathName : String) (artist title : Val)
    (results : List AcoustResult) (warnings : List (String × String)) :
    (Val × Val) × List (String × String) :=
  let st := fpScan artist title results
  if st.bestScore < cfg.min_confidence then
    ((.vnone, .vnone), warnings ++ [(pathName, "Low AcoustID score " ++ fmt2 st.bestScore)])
  else
    (fpExtractIds results, warnings)

/-- Outcomes of the effectful calls made by `TagLookup.lookup`, one oracle
per pipeline step (`.error` is an exception caught by the corresponding
`except` block). -/
structure LookupEnv where
  acoustidModule : Bool
  fileTags : Except String PDict
  fpResp : Except String (List AcoustResult)
  mbMeta : Except String PDict
  coverArt : Except String (Option (List Nat))
  lastfmMeta : Except String PDict
  discogsMeta : Except String PDict

/-- `TagLookup.lookup` step 1: read existing tags into the empty `meta`
(`meta.update(file_tags)` on `{}` yields the tags dict itself); a read
failure is a warning. -/
def tagsStep (pathName : String) (env : LookupEnv)
    (warnings : List (String × String)) : PDict × List (String × String) :=
  match env.fileTags with
  | .ok ft => (ft, warnings)
  | .error e => (([] : PDict), warnings ++ [(pathName, "Tag read failed: " ++ e)])

/-- `TagLookup.lookup` step 3: acoustic fingerprint, guarded by the
`acoustid` module and a truthy API key; an exception inside `_fp_lookup`
is caught as a warning and leaves both MBIDs `None`. -/
def fpStep (cfg : LookupConfig) (pathName : String) (env : LookupEnv)
    (artistHint titleHint : Val) (warnings : List (String × String)) :
    Val × Val × List (String × String) :=
  if env.acoustidModule && optTruthy cfg.acoustid_api_key then
    match env.fpResp with
    | .ok results =>
      let (ids, w) := fpLookupPure cfg pathName artistHint titleHint results warnings
      (ids.1, ids.2, w)
    | .error e => (Val.vnone, Val.vnone, warnings ++ [(pathName, "AcoustID lookup failed: " ++ e)])
  else (Val.vnone, Val.vnone, warnings)

/-- `TagLookup.lookup` step 4: MusicBrainz metadata, merged fill-if-empty;
`cond` is `recording_mbid or release_mbid or artist_hint or title_hint`.
Also yields the `mb_meta` local (`none` when unassigned). -/
def mbStep (pathName : String) (env : LookupEnv) (cond : Bool) (meta : PDict)
    (warnings : List (String × String)) :
    PDict × Option PDict × List (String × String) :=
  if cond then
    match env.mbMeta with
    | .ok mb => (merge meta mb, some mb, warnings)
    | .error e => (meta, none, warnings ++ [(pathName, "MusicBrainz fetch failed: " ++ e)])
  else (meta, none, warnings)

/-- `TagLookup.lookup` step 5: cover art from the release MBID (or the one
found by MusicBrainz); truthy bytes land in `meta["cover_bytes"]`. -/
def coverStep (cfg : LookupConfig) (pathName : String) (env : LookupEnv)
    (releaseMbid : Val) (mbMetaOpt : Option PDict) (meta : PDict)
    (warnings : List (String × String)) : PDict × List (String × String) :=
  if cfg.fetch_cover_art && !(dget meta "cover_bytes").truthy then
    let mbidForArt :=
      pyOr releaseMbid
        (match mbMetaOpt with
          | some mb => dget mb "release_mbid"
          | none => Val.vnone)
    if mbidForArt.truthy then
      match env.coverArt with
      | .ok (some bs) =>
        if bs.isEmpty then (meta, warnings) else (dset meta "cover_bytes" (.vbytes bs), warnings)
      | .ok none => (meta, warnings)
      | .error e => (meta, warnings ++ [(pathName, "Cover art fetch failed: " ++ e)])
    else (meta, warnings)
  else (meta, warnings)

/-- `TagLookup.lookup` step 6: Last.fm enrichment, merged fill-if-empty. -/
def lastfmStep (cfg : LookupConfig) (pathName : String) (env : LookupEnv)
    (artistHint titleHint : Val) (meta : PDict)
    (warnings : List (String × String)) : PDict × List (String × String) :=
  if optTruthy cfg.lastfm_api_key && (artistHint.truthy || titleHint.truthy) then
    match env.lastfmMeta with
    | .ok lf => (merge meta lf, warnings)
    | .error e => (meta, warnings ++ [(pathName, "Last.fm enrich failed: " ++ e)])
  else (meta, warnings)

/-- `TagLookup.lookup` step 7: Discogs enrichment, merged fill-if-empty. -/
def discogsStep (cfg : LookupConfig) (pathName : String) (env : LookupEnv)
    (artistHint : Val) (meta : PDict)
    (warnings : List (String × String)) : PDict × List (String × String) :=
  if optTruthy cfg.discogs_user_agent && (artistHint.truthy || (dget meta "album").truthy) then
    match env.discogsMeta with
    | .ok dc => (merge meta dc, warnings)
    | .error e => (meta, warnings ++ [(pathName, "Discogs enrich failed: " ++ e)])
  else (meta, warnings)

/-- Embedding of `TagLookup.lookup` (taglookup.py, steps 1-7), composed
from the step functions above exactly in source order. -/
def lookup (cfg : LookupConfig) (pathName : String) (hints : PDict) (env : LookupEnv) :
    PDict × List (String × String) :=
  let (meta, warnings) := tagsStep pathName env []
  let meta := applyHints cfg.prefer_existing meta hints
  if cfg.enable = false then (meta, warnings) else
  let artistHint := pyOr (dget meta "artist") (dget hints "artist")
  let titleHint := pyOr (dget meta "title") (dget hints "title")
  let (recordingMbid, releaseMbid, warnings) :=
    fpStep cfg pathName env artistHint titleHint warnings
  let (meta, mbMetaOpt, warnings) :=
    mbStep pathName env
      (recordingMbid.truthy || releaseMbid.truthy || artistHint.truthy || titleHint.truthy)
      meta warnings
  let (meta, warnings) := coverStep cfg pathName env releaseMbid mbMetaOpt meta warnings
  let (meta, warnings) := lastfmStep cfg pathName env artistHint titleHint meta warnings
  let (meta, warnings) := discogsStep cfg pathName env artistHint meta warnings
  (meta, warnings)

/-- Reference description of the second `_fp_lookup` loop: the first result
entry with a nonempty `recordings` list, if any. -/
def firstWithRecordings (results : List AcoustResult) : Option AcoustRecording :=
  (results.find? (fun r => !r.recordings.isEmpty)).bind (fun r => r.recordings.head?)

/-! Embedding of the retry wrappers `YouTubeDownloader._run_ytdlp`
(downloaders/youtube.py) and `SpotifyDownloader._run_spotdl`
(downloaders/spotify.py).  The yt-dlp / spotDL invocation of attempt `k` is
the oracle `op k`; its `.error` detail is the exception text the code
interpolates.  `time.sleep` is elided. -/

/-- `MAX_RETRIES` (downloaders/youtube.py and `SpotifyDownloader.MAX_RETRIES`). -/
def MAX_RETRIES : Nat := 3

/-- The `for attempt in range(1, MAX_RETRIES + 1)` loop of `_run_ytdlp`;
`fuel` is the number of remaining iterations, `lastExc` the `last_exc`
variable.  A fall-through of the loop hits the trailing
`raise RuntimeError(f"yt-dlp failed: {last_exc}")`. -/
def runYtdlpLoop {α : Type} (op : Nat → Except String α) (context : String) :
    Nat → Nat → Option String → List (String × String) →
    Except String α × List (String × String)
  | 0, _, lastExc, ws =>
    (.error ("yt-dlp failed: " ++ (match lastExc with | some e => e | none => "None")), ws)
  | fuel + 1, attempt, _, ws =>
    match op attempt with
    | .ok info => (.ok info, ws)
    | .error e =>
      let ws := ws ++ [(context, "yt-dlp failed on attempt " ++ toString attempt ++ ": " ++ e)]
      if attempt == MAX_RETRIES then
        (.error ("YouTube download failed after " ++ toString MAX_RETRIES ++ " attempts: " ++ e), ws)
      else runYtdlpLoop op context fuel (attempt + 1) (some e) ws

/-- `YouTubeDownloader._run_ytdlp`: run `op` with retries, appending a
warning per failed attempt to the accumulated warning list `ws`. -/
def runYtdlp {α : Type} (op : Nat → Except String α) (context : String)
    (ws : List (String × String)) : Except String α × List (String × String) :=
  runYtdlpLoop op context MAX_RETRIES 1 none ws

/-- The retry loop of `_run_spotdl`.  A successful `subprocess.run` returns
`None`; falling through the loop also returns `None` (only possible with
zero iterations). -/
def runSpotdlLoop (op : Nat → Except String Unit) (context : String) :
    Nat → Nat → List (String × String) → Except String Unit × List (String × String)
  | 0, _, ws => (.ok (), ws)
  | fuel + 1, attempt, ws =>
    match op attempt with
    | .ok _ => (.ok (), ws)
    | .error e =>
      let ws := ws ++ [(context, "spotDL failed on attempt " ++ toString attempt ++ ": " ++ e)]
      if attempt == MAX_RETRIES then
        (.error ("spotDL CLI failed after " ++ toString MAX_RETRIES ++ " attempts: " ++ e), ws)
      else runSpotdlLoop op context fuel (attempt + 1) ws

/-- `SpotifyDownloader._run_spotdl` (its `MAX_RETRIES` is also 3); the
`.error` detail is `err_txt` (stripped stderr, or `str(e)`). -/
def runSpotdl (op : Nat → Except String Unit) (context : String)
    (ws : List (String × String)) : Except String Unit × List (String × String) :=
  runSpotdlLoop op context MAX_RETRIES 1 ws

/-! Embedding of the per-item enrich-and-embed loop shared by
`MusicBot.handle_text_message`, `handle_audio_message` and
`handle_document_message` (main.py):
```
new_successes = []
for meta, path in successes:
    enriched, w = await self.tag_lookup.lookup(path, hints=meta)
    warnings.extend([(path.name, m) for _, m in w])
    try:
        self.embedder.embed(path, _sanitize_for_embed(enriched), enriched.get("cover_bytes"))
    except Exception as e:
        warnings.append((path.name, f"Metadata embed error: {e}"))
    new_successes.append((enriched, path))
successes = new_successes
```
-/

/-- Per-item outcomes of the two effectful calls inside the loop:
the enriched dict and warnings from `tag_lookup.lookup`, and the result
of `embedder.embed`. -/
structure ItemEnv where
  enriched : PDict
  lookupWarnings : List (String × String)
  embedResult : Except String Unit

/-- One iteration of the loop over `successes`: extend the warnings with
the lookup warnings re-keyed by `path.name`, degrade an embed exception to
a `"Metadata embed error: ..."` warning, and append the enriched item to
`new_successes`. -/
def processStep (env : PDict × String → ItemEnv)
    (acc : List (PDict × String) × List (String × String)) (item : PDict × String) :
    List (PDict × String) × List (String × String) :=
  let ie := env item
  let ws := acc.2 ++ ie.lookupWarnings.map (fun p => (item.2, p.2))
  let ws :=
    match ie.embedResult with
    | .ok _ => ws
    | .error e => ws ++ [(item.2, "Metadata embed error: " ++ e)]
  (acc.1 ++ [(ie.enriched, item.2)], ws)

/-- The loop over `successes`; items are `(meta, path.name)` pairs and
`env` supplies each item's lookup/embed outcome. -/
def processSuccesses (env : PDict × String → ItemEnv)
    (successes : List (PDict × String)) (warnings : List (String × String)) :
    List (PDict × String) × List (String × String) :=
  successes.foldl (processStep env) ([], warnings)

/-- The warnings one item contributes: its lookup warnings re-keyed by the
file name, then the embed-error warning when embedding raised. -/
def itemWarnings (env : PDict × String → ItemEnv) (item : PDict × String) :
    List (String × String) :=
  (env item).lookupWarnings.map (fun p => (item.2, p.2))
    ++ (match (env item).embedResult with
        | .ok _ => []
        | .error e => [(item.2, "Metadata embed error: " ++ e)])

/-- The handler tail around the loop: `failures` is passed through
untouched; only `successes` and `warnings` are rebuilt. -/
def handleBatchTail (env : PDict × String → ItemEnv)
    (successes : List (PDict × String)) (failures warnings : List (String × String)) :
    List (PDict × String) × List (String × String) × List (String × String) :=
  let (s, w) := processSuccesses env successes warnings
  (s, failures, w)

/-! Embedding of `MetadataEmbedder` (metadata.py).  A file on disk is
modelled by what the two mutagen openers would observe of it (`MP3(path)`
and `MP4(path)`), each with its tag dictionary and a save outcome; frame
construction stores the Python value passed to the frame.  (Failures
raised inside mutagen's frame constructors themselves are not modelled.) -/

/-- Outcome of `MP3(str(filepath), ID3=ID3)`: success, a
`HeaderNotFoundError`, or another exception. -/
inductive Mp3Open where
  | ok : Mp3Open
  | headerNotFound : Mp3Open
  | failed (e : String) : Mp3Open

/-- The MP3/ID3 view of the file: open outcome, current frames
(`None` when the file has no ID3 tag yet), and the `audio.save()` outcome. -/
structure ID3File where
  openRes : Mp3Open
  tags : Option PDict
  saveExc : Option String

/-- The MP4 view of the file: open outcome (`Cannot open M4A`), current
atoms (`mp4.tags` may be `None`), and the `mp4.save()` outcome. -/
structure MP4File where
  openExc : Option String
  tags : Option PDict
  saveExc : Option String

/-- The file as both mutagen openers would see it. -/
structure FileState where
  mp3 : ID3File
  m4a : MP4File

/-- UTF-8 bytes of a string (Python `s.encode("utf-8")`). -/
def strUtf8Bytes (s : String) : List Nat :=
  s.toUTF8.toList.map (fun b => b.toNat)

/-- Python `v.encode("utf-8")`: only defined on `str` (anything else
raises an `AttributeError`). -/
def pyEncodeUtf8 : Val → Except String Val
  | .vstr s => .ok (.vbytes (strUtf8Bytes s))
  | v => .error ("AttributeError: " ++ pyToString v ++ " has no attribute encode")

/-- A Python two-int tuple, as stored in the `trkn` / `disk` atoms. -/
def vpair (a b : Int) : Val :=
  .vlist (.cons (.vint a) (.cons (.vint b) .nil))

/-- A Python one-element list, as stored in the MP4 freeform atoms. -/
def vsingleton (v : Val) : Val :=
  .vlist (.cons v .nil)

/-- Apply a list of conditional tag writes in order: `some v` writes the
frame/atom, `none` means the source's guard was false and the write is
skipped. -/
def applyWrites : PDict → List (String × Option Val) → PDict
  | t, [] => t
  | t, (k, some v) :: rest => applyWrites (dset t k v) rest
  | t, (_, none) :: rest => applyWrites t rest

/-- The `APIC` write of `_embed_mp3`: present only for truthy cover bytes. -/
def apicWrite (cb : Option (List Nat)) : Option Val :=
  match cb with
  | some bs => if bs.isEmpty then none else some (.vbytes bs)
  | none => none

/-- The `covr` write of `_embed_m4a`: present only for truthy cover bytes. -/
def covrWrite (cb : Option (List Nat)) : Option Val :=
  match cb with
  | some bs => if bs.isEmpty then none else some (vsingleton (.vbytes bs))
  | none => none

/-- The ID3 frame writes of `MetadataEmbedder._embed_mp3`, in source
order.  `TIT2`/`TPE1`/`TALB` are unconditional (`meta.get(k, "")`); every
other frame is guarded exactly as in the source (`if meta.get(k):` for
truthiness, `is not None` for the numeric ones); the `TXXX` loop upper-
cases its keys. -/
def mp3Writes (meta : PDict) (coverBytes : Option (List Nat)) :
    List (String × Option Val) :=
  [ ("TIT2", some (dgetD meta "title" (.vstr ""))),
    ("TPE1", some (dgetD meta "artist" (.vstr ""))),
    ("TALB", some (dgetD meta "album" (.vstr ""))),
    ("TPE2", if (dget meta "album_artist").truthy then some (dget meta "album_artist") else none),
    ("TRCK", if dget meta "track_number" ≠ Val.vnone then
        some (.vstr (pyToString (dget meta "track_number"))) else none),
    ("TPOS", if dget meta "disc_number" ≠ Val.vnone then
        some (.vstr (pyToString (dget meta "disc_number"))) else none),
    ("TDRC", if (dget meta "release_date").truthy then
        some (.vstr (pyToString (dget meta "release_date"))) else none),
    ("TCON", if (dget meta "genre").truthy then some (dget meta "genre") else none),
    ("TCOM", if (dget meta "composer").truthy then some (dget meta "composer") else none),
    ("TPUB", if (dget meta "publisher").truthy then some (dget meta "publisher") else none),
    ("TSRC", if (dget meta "isrc").truthy then some (dget meta "isrc") else none),
    ("TBPM", if (dget meta "bpm").truthy then
        some (.vstr (pyToString (dget meta "bpm"))) else none),
    ("USLT", if (dget meta "lyrics").truthy then some (dget meta "lyrics") else none),
    ("COMM", if (dget meta "comment").truthy then some (dget meta "comment") else none),
    ("TCOP", if (dget meta "copyright").truthy then some (dget meta "copyright") else none),
    ("TENC", if (dget meta "encoder").truthy then some (dget meta "encoder") else none),
    ("WXXX", if (dget meta "url").truthy then some (dget meta "url") else none),
    ("TXXX:POPULARITY", if dget meta "popularity" ≠ Val.vnone then
        some (.vstr (pyToString (dget meta "popularity"))) else none),
    ("TXXX:MOOD", if dget meta "mood" ≠ Val.vnone then
        some (.vstr (pyToString (dget meta "mood"))) else none),
    ("TXXX:SCENE", if dget meta "scene" ≠ Val.vnone then
        some (.vstr (pyToString (dget meta "scene"))) else none),
    ("APIC", apicWrite coverBytes) ]

/-- Embedding of `MetadataEmbedder._embed_mp3`: open, `add_tags` when the
file has none, set the ID3 frames per `mp3Writes`, save. -/
def embedMp3 (fileName : String) (f : ID3File) (meta : PDict)
    (coverBytes : Option (List Nat)) : Except String Unit × ID3File :=
  match f.openRes with
  | .headerNotFound => (.error ("File at " ++ fileName ++ " is not a valid MP3."), f)
  | .failed e => (.error ("Cannot open MP3 for tagging: " ++ e), f)
  | .ok =>
    let tags := applyWrites (f.tags.getD []) (mp3Writes meta coverBytes)
    match f.saveExc with
    | some e => (.error ("Metadata embedding failed: " ++ e), f)
    | none => (.ok (), { f with tags := some tags })

/-- The `trkn` computation of `_embed_m4a`:
`if trk is not None: tags["trkn"] = [(int(trk), 0)]`, where `int(trk)`
may raise. -/
def m4aTrknVal (meta : PDict) (key : String) : Except String (Option Val) :=
  let trk := dget meta key
  if trk ≠ Val.vnone then
    match pyIntOfVal trk with
    | some n => .ok (some (vsingleton (vpair n 0)))
    | none => .error ("invalid literal for int(): " ++ pyRepr trk)
  else .ok none

/-- The freeform-atom computation `[value.encode("utf-8")]` guarded by
truthiness; `.encode` on a non-string raises. -/
def m4aEncVal (v : Val) : Except String (Option Val) :=
  if v.truthy then
    match pyEncodeUtf8 v with
    | .ok b => .ok (some (vsingleton b))
    | .error e => .error e
  else .ok none

/-- The MP4 atom writes of `MetadataEmbedder._embed_m4a`, in source order.
The atom-setting body runs outside any `try` block, so the `int(trk)` /
`int(dsk)` conversions and the `.encode("utf-8")` calls propagate their
exceptions out of `embed` (Python error texts abbreviated); an exception
from any of them aborts before `mp4.save()`, leaving the file unchanged. -/
def m4aWrites (meta : PDict) (coverBytes : Option (List Nat)) :
    Except String (List (String × Option Val)) :=
  match m4aTrknVal meta "track_number" with
  | .error e => .error e
  | .ok trknW =>
    match m4aTrknVal meta "disc_number" with
    | .error e => .error e
    | .ok diskW =>
      match m4aEncVal (dget meta "isrc") with
      | .error e => .error e
      | .ok isrcW =>
        match m4aEncVal (dget meta "url") with
        | .error e => .error e
        | .ok urlW =>
          .ok
            [ ("\xa9nam", some (pyOr (dgetD meta "title" (.vstr "")) (.vstr ""))),
              ("\xa9ART", some (pyOr (dgetD meta "artist" (.vstr "")) (.vstr ""))),
              ("\xa9alb", some (pyOr (dgetD meta "album" (.vstr "")) (.vstr ""))),
              ("aART", if (dget meta "album_artist").truthy then some (dget meta "album_artist") else none),
              ("trkn", trknW),
              ("disk", diskW),
              ("\xa9day", if (dget meta "release_date").truthy then
                  some (.vstr (pyToString (dget meta "release_date"))) else none),
              ("\xa9gen", if (dget meta "genre").truthy then some (dget meta "genre") else none),
              ("----:com.apple.iTunes:ISRC", isrcW),
              ("----:com.apple.iTunes:URL", urlW),
              ("----:com.apple.iTunes:POPM", if dget meta "popularity" ≠ Val.vnone then
                  some (vsingleton (.vbytes (strUtf8Bytes (pyToString (dget meta "popularity"))))) else none),
              ("covr", covrWrite coverBytes) ]

/-- Embedding of `MetadataEmbedder._embed_m4a`: open, set atoms
(`tags = mp4.tags or \x7b\x7d`) per `m4aWrites`, save. -/
def embedM4a (f : MP4File) (meta : PDict) (coverBytes : Option (List Nat)) :
    Except String Unit × MP4File :=
  match f.openExc with
  | some e => (.error ("Cannot open M4A for tagging: " ++ e), f)
  | none =>
    match m4aWrites meta coverBytes with
    | .error e => (.error e, f)
    | .ok ws =>
      match f.saveExc with
      | some e => (.error ("M4A metadata embedding failed: " ++ e), f)
      | none => (.ok (), { f with tags := some (applyWrites (f.tags.getD []) ws) })

/-- `pathlib.PurePath.suffix` of a file name (its final component):
the part from the last dot `i` when `0 < i < len(name) - 1`, else `""`. -/
def pySuffix (name : String) : String :=
  let cs := name.toList
  match cs.reverse.findIdx? (fun c => c == '.') with
  | none => ""
  | some j =>
    let i := cs.length - 1 - j
    if 0 < i && i < cs.length - 1 then String.mk (cs.drop i) else ""

/-- Embedding of `MetadataEmbedder.embed`: dispatch on the lower-cased
file-name suffix; unknown containers raise
`RuntimeError(f"Unsupported tagging format: {suffix}")` before the file is
touched. -/
def embed (fileName : String) (fs : FileState) (meta : PDict)
    (coverBytes : Option (List Nat)) : Except String Unit × FileState :=
  let suffix := pyLower (pySuffix fileName)
  if suffix = ".mp3" then
    let (r, f) := embedMp3 fileName fs.mp3 meta coverBytes
    (r, { fs with mp3 := f })
  else if suffix = ".m4a" || suffix = ".mp4" then
    let (r, f) := embedM4a fs.m4a meta coverBytes
    (r, { fs with m4a := f })
  else
    (.error ("Unsupported tagging format: " ++ suffix), fs)

/-! Concrete fixtures used by witnesses and counterexamples. -/

/-- A `LookupEnv` without the acoustid module, with inert cover/Last.fm/
Discogs oracles and the given tag-read and MusicBrainz outcomes. -/
def envWith (ft mb : Except String PDict) : LookupEnv :=
  { acoustidModule := false
    fileTags := ft
    fpResp := .ok []
    mbMeta := mb
    coverArt := .ok none
    lastfmMeta := .ok []
    discogsMeta := .ok [] }

/-- The dict `_read_existing_tags` returns for a file whose only embedded
tag is the title `"A"`. -/
def ftTitleA : PDict :=
  [("title", .vstr "A"), ("artist", .vnone), ("album", .vnone),
   ("album_artist", .vnone), ("track_number", .vnone), ("disc_number", .vnone),
   ("genre", .vnone), ("date", .vnone)]

/-- Catalog (MusicBrainz) metadata offering the title `"B"`. -/
def mbTitleB : PDict := [("title", .vstr "B")]

/-- `LookupConfig` with default values (threshold `0.5`,
`prefer_existing_tags = True`). -/
def cfgDefault : LookupConfig := {}

/-- `LookupConfig` with `prefer_existing_tags = False`, cover art off and
the optional extras disabled. -/
def cfgPreferFalse : LookupConfig :=
  { enable := true
    min_confidence := mkRat 1 2
    acoustid_api_key := none
    lastfm_api_key := none
    discogs_user_agent := none
    discogs_token := none
    prefer_existing := false
    fetch_cover_art := false }

/-- AcoustID response whose second entry scores highest (0.9) while the
first entry (0.4) holds the first nonempty `recordings` list. -/
def fpRespCex : List AcoustResult :=
  [ { score := mkRat 2 5, rid := .vstr "R1", title_cand := .vstr "T1", artist_cand := .vstr "A1",
      recordings := [{ recid := .vstr "R1", releasegroups := [{ rgid := .vstr "G1" }] }] },
    { score := mkRat 9 10, rid := .vstr "R2", title_cand := .vstr "T2", artist_cand := .vstr "A2",
      recordings := [{ recid := .vstr "R2", releasegroups := [{ rgid := .vstr "G2" }] }] } ]

/-- AcoustID response with a single candidate scoring 0.3. -/
def fpRespLow : List AcoustResult :=
  [ { score := mkRat 3 10, rid := .vstr "R1", title_cand := .vstr "T", artist_cand := .vstr "A",
      recordings := [{ recid := .vstr "R1", releasegroups := [] }] } ]

/-- A download operation that fails on attempts 1 and 2 and succeeds on 3. -/
def opThirdTimeLucky : Nat → Except String String :=
  fun n => if n == 3 then .ok "info" else .error ("boom" ++ toString n)

/-- A download operation that fails on every attempt. -/
def opFailAlways : Nat → Except String String := fun n => .error ("boom" ++ toString n)

/-- spotDL runs that fail twice then succeed, and that always fail. -/
def opSpThirdTimeLucky : Nat → Except String Unit :=
  fun n => if n == 3 then .ok () else .error ("err" ++ toString n)

/-- spotDL run failing on every attempt. -/
def opSpFailAlways : Nat → Except String Unit := fun n => .error ("err" ++ toString n)

/-- An item environment whose embed step always raises `boom`. -/
def itemEnvEmbedFails : PDict × String → ItemEnv :=
  fun item => { enriched := item.1, lookupWarnings := [], embedResult := .error "boom" }

/-- A one-item batch: the downloaded song with its title hint. -/
def cexItem : PDict × String := ([("title", Val.vstr "T")], "song.mp3")

/-- An MP3 view that opens cleanly, has no ID3 tag yet and saves fine. -/
def mp3OkFile : ID3File := { openRes := .ok, tags := some [], saveExc := none }

/-- An MP4 view that opens cleanly, has no atoms yet and saves fine. -/
def m4aOkFile : MP4File := { openExc := none, tags := some [], saveExc := none }

/-- A healthy file under both views. -/
def fsOk : FileState := { mp3 := mp3OkFile, m4a := m4aOkFile }

/-- An MP3 whose container already carries the title frame `"Old"`. -/
def mp3WithOldTitle : ID3File :=
  { openRes := .ok, tags := some [("TIT2", Val.vstr "Old")], saveExc := none }

/-- The same file as a full `FileState`. -/
def fsOldTitle : FileState := { mp3 := mp3WithOldTitle, m4a := m4aOkFile }

/-! Basic lemmas about the `PDict` operations. -/

theorem dgetOpt_dset_self (d : PDict) (k : String) (v : Val) :
    dgetOpt (dset d k v) k = some v := by
  induction d with
  | nil => simp [dgetOpt, dset]
  | cons kv rest ih =>
    by_cases h : kv.1 = k
    · simp [dset, h, dgetOpt]
    · simpa [dset, h, dgetOpt] using ih

theorem dget_dset_self (d : PDict) (k : String) (v : Val) :
    dget (dset d k v) k = v := by
  simp [dget, dgetOpt_dset_self]

theorem dgetOpt_dset_ne (d : PDict) (k k' : String) (v : Val) (h : k' ≠ k) :
    dgetOpt (dset d k' v) k = dgetOpt d k := by
  induction d with
  | nil => simp [dgetOpt, dset, h]
  | cons kv rest ih =>
    obtain ⟨a, b⟩ := kv
    by_cases hk : a = k'
    · subst hk
      simp [dset, dgetOpt, h, Ne.symm h]
    · by_cases hk2 : a = k
      · subst hk2
        simp [dset, dgetOpt, hk, Ne.symm h]
      · simpa [dset, hk, dgetOpt, hk2] using ih

theorem dget_dset_ne (d : PDict) (k k' : String) (v : Val) (h : k' ≠ k) :
    dget (dset d k' v) k = dget d k := by
  simp [dget, dgetOpt_dset_ne d k k' v h]

/-- Writing back the value a key already holds leaves the dict unchanged. -/
theorem dset_dgetOpt_self (d : PDict) (k : String) (v : Val)
    (h : dgetOpt d k = some v) : dset d k v = d := by
  induction d with
  | nil => simp [dgetOpt] at h
  | cons kv rest ih =>
    obtain ⟨a, b⟩ := kv
    by_cases hk : a = k
    · subst hk
      simp [dgetOpt] at h
      simp [dset, h]
    · simp [dgetOpt, hk] at h
      simp [dset, hk, ih h]

/-- Removing an absent key is a no-op. -/
theorem dremove_absent (d : PDict) (k : String) (h : dgetOpt d k = none) :
    dremove d k = d := by
  induction d with
  | nil => rfl
  | cons kv rest ih =>
    by_cases hk : kv.1 = k
    · simp [dgetOpt, hk] at h
    · simp [dgetOpt, hk] at h
      simp [dremove, hk, ih h]

theorem dgetOpt_dremove_self (d : PDict) (k : String) :
    dgetOpt (dremove d k) k = none := by
  induction d with
  | nil => rfl
  | cons kv rest ih =>
    by_cases hk : kv.1 = k
    · simpa [dremove, hk] using ih
    · simpa [dremove, hk, dgetOpt] using ih

theorem dgetOpt_dremove_ne (d : PDict) (k k' : String) (h : k' ≠ k) :
    dgetOpt (dremove d k') k = dgetOpt d k := by
  induction d with
  | nil => rfl
  | cons kv rest ih =>
    obtain ⟨a, b⟩ := kv
    by_cases hk : a = k'
    · subst hk
      simpa [dremove, dgetOpt, h, Ne.symm h] using ih
    · by_cases hk2 : a = k
      · subst hk2
        simp [dremove, dgetOpt, hk, Ne.symm h]
      · simpa [dremove, hk, dgetOpt, hk2] using ih

/-! Lemmas about `merge` and `applyHints`. -/

theorem merge_cons (dst : PDict) (kv : String × Val) (rest : PDict) :
    merge dst (kv :: rest) = merge (mergeStep dst kv) rest := rfl

theorem dget_mergeStep_ne (d : PDict) (a k : String) (b : Val) (h : a ≠ k) :
    dget (mergeStep d (a, b)) k = dget d k := by
  unfold mergeStep
  by_cases hb : b = Val.vnone
  · simp [hb]
  · by_cases ht : (dget d a).truthy
    · simp [hb, ht]
    · simp [hb, ht, dget_dset_ne d k a b h]

theorem dget_merge_not_mem (dst src : PDict) (k : String)
    (h : k ∉ src.map Prod.fst) : dget (merge dst src) k = dget dst k := by
  induction src generalizing dst with
  | nil => rfl
  | cons kv rest ih =>
    obtain ⟨a, b⟩ := kv
    simp only [List.map_cons, List.mem_cons] at h
    push_neg at h
    rw [merge_cons, ih _ h.2, dget_mergeStep_ne dst a k b (fun e => h.1 e.symm)]

theorem dget_hintStep_ne (pe : Bool) (m : PDict) (a k : String) (b : Val) (h : a ≠ k) :
    dget (hintStep pe m (a, b)) k = dget m k := by
  unfold hintStep
  by_cases hc : b.truthy && (!pe || !(dget m a).truthy)
  · simp [hc, dget_dset_ne m k a b h]
  · simp [hc]

theorem dget_applyHints_not_mem (pe : Bool) (m hints : PDict) (k : String)
    (h : k ∉ hints.map Prod.fst) : dget (applyHints pe m hints) k = dget m k := by
  induction hints generalizing m with
  | nil => rfl
  | cons kv rest ih =>
    obtain ⟨a, b⟩ := kv
    simp only [List.map_cons, List.mem_cons] at h
    push_neg at h
    show dget (applyHints pe (hintStep pe m (a, b)) rest) k = dget m k
    rw [ih _ h.2, dget_hintStep_ne pe m a k b (fun e => h.1 e.symm)]

/-- Falsy hint values (including `None`) are never applied, under any
`prefer_existing` setting. -/
theorem dget_applyHints_falsy (pe : Bool) (m hints : PDict) (k : String)
    (h : ∀ v : Val, (k, v) ∈ hints → v.truthy = false) :
    dget (applyHints pe m hints) k = dget m k := by
  induction hints generalizing m with
  | nil => rfl
  | cons kv rest ih =>
    obtain ⟨a, b⟩ := kv
    show dget (applyHints pe (hintStep pe m (a, b)) rest) k = dget m k
    have hrest : ∀ v : Val, (k, v) ∈ rest → v.truthy = false := by
      intro v hv
      exact h v (List.mem_cons_of_mem _ hv)
    by_cases hak : a = k
    · subst hak
      have hb : b.truthy = false := h b (List.mem_cons_self _ _)
      rw [ih _ hrest]
      simp [hintStep, hb]
    · rw [ih _ hrest, dget_hintStep_ne pe m a k b hak]

/-- A key with no entry in a dict is not among its keys. -/
theorem not_mem_of_dgetOpt_none (d : PDict) (k : String) (h : dgetOpt d k = none) :
    k ∉ d.map Prod.fst := by
  induction d with
  | nil => simp
  | cons kv rest ih =>
    by_cases hk : kv.1 = k
    · simp [dgetOpt, hk] at h
    · simp [dgetOpt, hk] at h
      simp only [List.map_cons, List.mem_cons, not_or]
      exact ⟨fun e => hk e.symm, ih h⟩

/-- A key absent from the hint dict is untouched by `applyHints`. -/
theorem dget_applyHints_absent (pe : Bool) (m hints : PDict) (k : String)
    (h : dgetOpt hints k = none) : dget (applyHints pe m hints) k = dget m k :=
  dget_applyHints_not_mem pe m hints k (not_mem_of_dgetOpt_none hints k h)

/-- A non-`None` value merged at a falsy destination key lands there,
provided the source dict has no duplicate keys (Python dicts never do). -/
theorem dget_merge_falsy (src dst : PDict) (k : String) (v : Val)
    (hn : (src.map Prod.fst).Nodup) (ht : (dget dst k).truthy = false)
    (hsrc : dgetOpt src k = some v) (hv : v ≠ Val.vnone) :
    dget (merge dst src) k = v := by
  induction src generalizing dst with
  | nil => simp [dgetOpt] at hsrc
  | cons kv rest ih =>
    obtain ⟨a, b⟩ := kv
    rw [List.map_cons, List.nodup_cons] at hn
    rw [merge_cons]
    by_cases hak : a = k
    · simp [dgetOpt, hak] at hsrc
      have hbv : b ≠ Val.vnone := by rw [hsrc]; exact hv
      have hta : (dget dst a).truthy = false := by rw [hak]; exact ht
      have hstep : mergeStep dst (a, b) = dset dst a b := by
        unfold mergeStep
        simp [hbv, hta]
      have hnk : k ∉ rest.map Prod.fst := by rw [← hak]; exact hn.1
      rw [hstep, dget_merge_not_mem _ _ _ hnk, hak, dget_dset_self]
      exact hsrc
    · simp [dgetOpt, hak] at hsrc
      have hpres := dget_mergeStep_ne dst a k b hak
      exact ih (mergeStep dst (a, b)) hn.2 (by rw [hpres]; exact ht) hsrc

/-- A `None` source value is never copied by `merge`, even into an empty
destination field (duplicate-free source keys). -/
theorem dget_merge_none (src dst : PDict) (k : String)
    (hn : (src.map Prod.fst).Nodup) (hsrc : dgetOpt src k = some Val.vnone) :
    dget (merge dst src) k = dget dst k := by
  induction src generalizing dst with
  | nil => simp [dgetOpt] at hsrc
  | cons kv rest ih =>
    obtain ⟨a, b⟩ := kv
    rw [List.map_cons, List.nodup_cons] at hn
    rw [merge_cons]
    by_cases hak : a = k
    · simp [dgetOpt, hak] at hsrc
      have hstep : mergeStep dst (a, b) = dst := by
        unfold mergeStep
        simp [hsrc]
      have hnk : k ∉ rest.map Prod.fst := by rw [← hak]; exact hn.1
      rw [hstep, dget_merge_not_mem _ _ _ hnk]
    · simp [dgetOpt, hak] at hsrc
      have hpres := dget_mergeStep_ne dst a k b hak
      rw [ih (mergeStep dst (a, b)) hn.2 hsrc, hpres]

/-- A truthy hint lands at a falsy destination key under
`prefer_existing = True` (duplicate-free hint keys). -/
theorem dget_applyHints_falsy_dst (hints m : PDict) (k : String) (v : Val)
    (hn : (hints.map Prod.fst).Nodup) (ht : (dget m k).truthy = false)
    (hsrc : dgetOpt hints k = some v) (hv : v.truthy = true) :
    dget (applyHints true m hints) k = v := by
  induction hints generalizing m with
  | nil => simp [dgetOpt] at hsrc
  | cons kv rest ih =>
    obtain ⟨a, b⟩ := kv
    rw [List.map_cons, List.nodup_cons] at hn
    show dget (applyHints true (hintStep true m (a, b)) rest) k = v
    by_cases hak : a = k
    · simp [dgetOpt, hak] at hsrc
      have hbv : b.truthy = true := by rw [hsrc]; exact hv
      have hta : (dget m a).truthy = false := by rw [hak]; exact ht
      have hstep : hintStep true m (a, b) = dset m a b := by
        unfold hintStep
        simp [hbv, hta]
      have hnk : k ∉ rest.map Prod.fst := by rw [← hak]; exact hn.1
      rw [hstep, dget_applyHints_not_mem _ _ _ _ hnk, hak, dget_dset_self]
      exact hsrc
    · simp [dgetOpt, hak] at hsrc
      have hpres := dget_hintStep_ne true m a k b hak
      exact ih (hintStep true m (a, b)) hn.2 (by rw [hpres]; exact ht) hsrc

/-- C1 core lemma: a truthy entry of `dst` survives `merge` unchanged. -/
theorem dget_merge_truthy (dst src : PDict) (k : String)
    (h : (dget dst k).truthy) : dget (merge dst src) k = dget dst k := by
  induction src generalizing dst with
  | nil => rfl
  | cons kv rest ih =>
    obtain ⟨a, b⟩ := kv
    have hstep : dget (mergeStep dst (a, b)) k = dget dst k := by
      by_cases hak : a = k
      · subst hak
        unfold mergeStep
        by_cases hb : b = Val.vnone
        · simp [hb]
        · simp [hb, h]
      · exact dget_mergeStep_ne dst a k b hak
    rw [merge_cons, ih _ (by rw [hstep]; exact h), hstep]

/-! Lemmas about the fingerprint scan and the lookup steps. -/

/-- The scan's `best_score` is the running maximum of the scores. -/
theorem foldl_fpScanStep_bestScore (results : List AcoustResult) :
    ∀ st : FpScanState,
      (results.foldl fpScanStep st).bestScore
        = (results.map AcoustResult.score).foldl max st.bestScore := by
  induction results with
  | nil => intro st; rfl
  | cons r rest ih =>
    intro st
    rw [List.foldl_cons, List.map_cons, List.foldl_cons, ih]
    congr 1
    unfold fpScanStep
    by_cases h : st.bestScore < r.score
    · rw [if_pos h]
      exact (max_eq_right h.le).symm
    · rw [if_neg h]
      exact (max_eq_left (not_lt.mp h)).symm

/-- `best_score` after the scan is the maximum of `0.0` and the scores. -/
theorem fpScan_bestScore (artist title : Val) (results : List AcoustResult) :
    (fpScan artist title results).bestScore
      = (results.map AcoustResult.score).foldl max 0 :=
  foldl_fpScanStep_bestScore results _

/-- The second `_fp_lookup` loop extracts the ids of the first entry with
a nonempty recordings list. -/
theorem fpExtractIds_eq_spec (results : List AcoustResult) :
    fpExtractIds results
      = (match firstWithRecordings results with
        | none => (Val.vnone, Val.vnone)
        | some rec0 =>
          (rec0.recid,
            match rec0.releasegroups with
            | [] => Val.vnone
            | rg :: _ => rg.rgid)) := by
  induction results with
  | nil => rfl
  | cons r rest ih =>
    cases hr : r.recordings with
    | nil =>
      have h1 : fpExtractIds (r :: rest) = fpExtractIds rest := by
        have hstep : fpExtractIds (r :: rest)
            = (match r.recordings with
              | [] => fpExtractIds rest
              | rec0 :: _ =>
                (rec0.recid,
                  match rec0.releasegroups with
                  | [] => Val.vnone
                  | rg0 :: _ => rg0.rgid)) := rfl
        rw [hstep, hr]
      have h2 : firstWithRecordings (r :: rest) = firstWithRecordings rest := by
        unfold firstWithRecordings
        rw [List.find?_cons, hr]
        rfl
      rw [h1, h2, ih]
    | cons rec0 recs =>
      have h1 : firstWithRecordings (r :: rest) = some rec0 := by
        unfold firstWithRecordings
        rw [List.find?_cons, hr]
        simp [hr]
      rw [h1]
      unfold fpExtractIds
      rw [hr]

/-- Step 4 (MusicBrainz) never changes a truthy field of `meta`. -/
theorem dget_mbStep_truthy (pathName : String) (env : LookupEnv) (cond : Bool)
    (meta : PDict) (ws : List (String × String)) (k : String)
    (h : (dget meta k).truthy = true) :
    dget (mbStep pathName env cond meta ws).1 k = dget meta k := by
  unfold mbStep
  by_cases hc : cond
  · cases hmb : env.mbMeta with
    | error e => simp [hc, hmb]
    | ok mb => simpa [hc, hmb] using dget_merge_truthy meta mb k h
  · simp [hc]

/-- Step 5 (cover art) touches only `meta["cover_bytes"]`. -/
theorem dget_coverStep_ne (cfg : LookupConfig) (pathName : String) (env : LookupEnv)
    (rel : Val) (mbo : Option PDict) (meta : PDict) (ws : List (String × String))
    (k : String) (h : k ≠ "cover_bytes") :
    dget (coverStep cfg pathName env rel mbo meta ws).1 k = dget meta k := by
  unfold coverStep
  by_cases hc : cfg.fetch_cover_art && !(dget meta "cover_bytes").truthy
  · simp only [hc, if_true]
    by_cases hart :
        (pyOr rel (match mbo with | some mb => dget mb "release_mbid" | none => Val.vnone)).truthy
    · simp only [hart, if_true]
      cases hca : env.coverArt with
      | error e => simp
      | ok ob =>
        cases ob with
        | none => simp
        | some bs =>
          by_cases hbs : bs.isEmpty
          · simp [hbs]
          · simp [hbs, dget_dset_ne meta k "cover_bytes" (.vbytes bs) (Ne.symm h)]
    · simp [hart]
  · simp [hc]

/-- Step 6 (Last.fm) never changes a truthy field of `meta`. -/
theorem dget_lastfmStep_truthy (cfg : LookupConfig) (pathName : String) (env : LookupEnv)
    (aH tH : Val) (meta : PDict) (ws : List (String × String)) (k : String)
    (h : (dget meta k).truthy = true) :
    dget (lastfmStep cfg pathName env aH tH meta ws).1 k = dget meta k := by
  unfold lastfmStep
  by_cases hc : optTruthy cfg.lastfm_api_key && (aH.truthy || tH.truthy)
  · cases hlf : env.lastfmMeta with
    | error e => simp [hc, hlf]
    | ok lf => simpa [hc, hlf] using dget_merge_truthy meta lf k h
  · simp [hc]

/-- Step 7 (Discogs) never changes a truthy field of `meta`. -/
theorem dget_discogsStep_truthy (cfg : LookupConfig) (pathName : String) (env : LookupEnv)
    (aH : Val) (meta : PDict) (ws : List (String × String)) (k : String)
    (h : (dget meta k).truthy = true) :
    dget (discogsStep cfg pathName env aH meta ws).1 k = dget meta k := by
  unfold discogsStep
  by_cases hc : optTruthy cfg.discogs_user_agent && (aH.truthy || (dget meta "album").truthy)
  · cases hdc : env.discogsMeta with
    | error e => simp [hc, hdc]
    | ok dc => simpa [hc, hdc] using dget_merge_truthy meta dc k h
  · simp [hc]

/-! Lemmas about the enrich-and-embed loop. -/

theorem processStep_eq (env : PDict × String → ItemEnv)
    (acc : List (PDict × String) × List (String × String)) (item : PDict × String) :
    processStep env acc item
      = (acc.1 ++ [((env item).enriched, item.2)], acc.2 ++ itemWarnings env item) := by
  unfold processStep itemWarnings
  cases he : (env item).embedResult <;> simp [he]

theorem processSuccesses_go (env : PDict × String → ItemEnv) (ss : List (PDict × String)) :
    ∀ (acc : List (PDict × String)) (ws : List (String × String)),
      ss.foldl (processStep env) (acc, ws)
        = (acc ++ ss.map (fun it => ((env it).enriched, it.2)),
           ws ++ (ss.map (itemWarnings env)).flatten) := by
  induction ss with
  | nil => intro acc ws; simp
  | cons it rest ih =>
    intro acc ws
    rw [List.foldl_cons, processStep_eq, ih]
    simp

theorem processSuccesses_spec (env : PDict × String → ItemEnv)
    (ss : List (PDict × String)) (ws : List (String × String)) :
    processSuccesses env ss ws
      = (ss.map (fun it => ((env it).enriched, it.2)),
         ws ++ (ss.map (itemWarnings env)).flatten) := by
  unfold processSuccesses
  rw [processSuccesses_go]
  simp

/-! Lemmas about `applyWrites` and the embedder write lists. -/

theorem applyWrites_append (l1 l2 : List (String × Option Val)) :
    ∀ t : PDict, applyWrites t (l1 ++ l2) = applyWrites (applyWrites t l1) l2 := by
  induction l1 with
  | nil => intro t; rfl
  | cons kv rest ih =>
    intro t
    obtain ⟨a, o⟩ := kv
    cases o <;> simp [applyWrites, ih]

theorem dgetOpt_applyWrites_not_mem (ws : List (String × Option Val)) (k : String)
    (h : k ∉ ws.map Prod.fst) :
    ∀ t : PDict, dgetOpt (applyWrites t ws) k = dgetOpt t k := by
  induction ws with
  | nil => intro t; rfl
  | cons kv rest ih =>
    intro t
    obtain ⟨a, o⟩ := kv
    simp only [List.map_cons, List.mem_cons, not_or] at h
    cases o with
    | none => exact ih h.2 t
    | some v =>
      show dgetOpt (applyWrites (dset t a v) rest) k = dgetOpt t k
      rw [ih h.2 (dset t a v), dgetOpt_dset_ne t k a v (fun e => h.1 e.symm)]

/-- `applyWrites` at a key written exactly once: the written value when the
guard held (`some v`), the original tag when it did not (`none`). -/
theorem dgetOpt_applyWrites_at (ws : List (String × Option Val)) (i : Nat)
    (F : String) (o : Option Val)
    (hget : ws[i]? = some (F, o)) (hn : (ws.map Prod.fst).Nodup) :
    ∀ t : PDict,
      dgetOpt (applyWrites t ws) F = (o.map some).getD (dgetOpt t F) := by
  induction ws generalizing i with
  | nil => simp at hget
  | cons kv rest ih =>
    obtain ⟨a, b⟩ := kv
    rw [List.map_cons, List.nodup_cons] at hn
    intro t
    cases i with
    | zero =>
      rw [List.getElem?_cons_zero, Option.some_inj] at hget
      have haF : a = F := congrArg Prod.fst hget
      have hbo : b = o := congrArg Prod.snd hget
      subst haF
      subst hbo
      cases b with
      | some v =>
        show dgetOpt (applyWrites (dset t a v) rest) a = some v
        rw [dgetOpt_applyWrites_not_mem rest a hn.1 (dset t a v), dgetOpt_dset_self]
      | none =>
        show dgetOpt (applyWrites t rest) a = dgetOpt t a
        exact dgetOpt_applyWrites_not_mem rest a hn.1 t
    | succ j =>
      rw [List.getElem?_cons_succ] at hget
      have hget2 : rest[j]? = some (F, o) := hget
      have hFmem : F ∈ rest.map Prod.fst := by
        obtain ⟨hj, hval⟩ := List.getElem?_eq_some_iff.mp hget2
        exact List.mem_map_of_mem Prod.fst (hval ▸ List.getElem_mem hj)
      have haF : a ≠ F := fun e => hn.1 (e ▸ hFmem)
      cases b with
      | none => exact ih j hget2 hn.2 t
      | some v =>
        show dgetOpt (applyWrites (dset t a v) rest) F = _
        rw [ih j hget2 hn.2 (dset t a v)]
        cases o with
        | some w => rfl
        | none =>
          show dgetOpt (dset t a v) F = dgetOpt t F
          exact dgetOpt_dset_ne t F a v haF

/-- When the `track_number` / `disc_number` value is `None`, the guard is
skipped and the atom computation yields no write. -/
theorem m4aTrknVal_of_vnone (meta : PDict) (key : String)
    (h : dget meta key = Val.vnone) : m4aTrknVal meta key = .ok none := by
  unfold m4aTrknVal
  rw [h]
  simp

/-- Inversion of a successful `m4aWrites`: the atom list it returns, with
the four effectfully-computed entries abstract, and the guard facts about
`trkn` / `disk`. -/
theorem m4aWrites_ok_inv (meta : PDict) (cb : Option (List Nat))
    (ws : List (String × Option Val)) (h : m4aWrites meta cb = .ok ws) :
    ∃ trknW diskW isrcW urlW : Option Val,
      ws = [ ("\xa9nam", some (pyOr (dgetD meta "title" (.vstr "")) (.vstr ""))),
             ("\xa9ART", some (pyOr (dgetD meta "artist" (.vstr "")) (.vstr ""))),
             ("\xa9alb", some (pyOr (dgetD meta "album" (.vstr "")) (.vstr ""))),
             ("aART", if (dget meta "album_artist").truthy then some (dget meta "album_artist") else none),
             ("trkn", trknW), ("disk", diskW),
             ("\xa9day", if (dget meta "release_date").truthy then
                 some (.vstr (pyToString (dget meta "release_date"))) else none),
             ("\xa9gen", if (dget meta "genre").truthy then some (dget meta "genre") else none),
             ("----:com.apple.iTunes:ISRC", isrcW),
             ("----:com.apple.iTunes:URL", urlW),
             ("----:com.apple.iTunes:POPM", if dget meta "popularity" ≠ Val.vnone then
                 some (vsingleton (.vbytes (strUtf8Bytes (pyToString (dget meta "popularity"))))) else none),
             ("covr", covrWrite cb) ] ∧
      (dget meta "track_number" = .vnone → trknW = none) ∧
      (dget meta "disc_number" = .vnone → diskW = none) := by
  unfold m4aWrites at h
  rcases hc1 : m4aTrknVal meta "track_number" with e | trknW <;> rw [hc1] at h
  · exact absurd h (by simp)
  rcases hc2 : m4aTrknVal meta "disc_number" with e | diskW <;> rw [hc2] at h
  · exact absurd h (by simp)
  rcases hc3 : m4aEncVal (dget meta "isrc") with e | isrcW <;> rw [hc3] at h
  · exact absurd h (by simp)
  rcases hc4 : m4aEncVal (dget meta "url") with e | urlW <;> rw [hc4] at h
  · exact absurd h (by simp)
  rw [Except.ok.injEq] at h
  refine ⟨trknW, diskW, isrcW, urlW, h.symm, fun htrk => ?_, fun hdsk => ?_⟩
  · rw [m4aTrknVal_of_vnone meta "track_number" htrk, Except.ok.injEq] at hc1
    exact hc1.symm
  · rw [m4aTrknVal_of_vnone meta "disc_number" hdsk, Except.ok.injEq] at hc2
    exact hc2.symm

/-! Lemmas for the idempotence of `_sanitize_for_embed`. -/

theorem dget_dremove_ne (d : PDict) (k k' : String) (h : k' ≠ k) :
    dget (dremove d k') k = dget d k := by
  simp [dget, dgetOpt_dremove_ne d k k' h]

theorem dgetOpt_dropNone_not_mem (ks : List String) (k : String) (h : k ∉ ks) :
    ∀ m : PDict, dgetOpt (dropNoneKeys m ks) k = dgetOpt m k := by
  induction ks with
  | nil => intro m; rfl
  | cons k0 tail ih =>
    intro m
    simp only [List.mem_cons, not_or] at h
    show dgetOpt (dropNoneKeys (if dgetOpt m k0 = some Val.vnone then dremove m k0 else m) tail) k
        = dgetOpt m k
    rw [ih h.2]
    by_cases hc : dgetOpt m k0 = some Val.vnone
    · rw [if_pos hc, dgetOpt_dremove_ne m k k0 (fun e => h.1 e.symm)]
    · rw [if_neg hc]

theorem dget_dropNone_not_mem (ks : List String) (k : String) (h : k ∉ ks) (m : PDict) :
    dget (dropNoneKeys m ks) k = dget m k := by
  simp [dget, dgetOpt_dropNone_not_mem ks k h m]

theorem dropNone_id (ks : List String) (m : PDict)
    (h : ∀ k ∈ ks, dgetOpt m k ≠ some Val.vnone) : dropNoneKeys m ks = m := by
  induction ks with
  | nil => rfl
  | cons k0 tail ih =>
    show dropNoneKeys (if dgetOpt m k0 = some Val.vnone then dremove m k0 else m) tail = m
    rw [if_neg (h k0 (List.mem_cons_self _ _))]
    exact ih (fun k hk => h k (List.mem_cons_of_mem _ hk))

theorem dropNone_post (ks : List String) (k : String) (h : k ∈ ks) :
    ∀ m : PDict, dgetOpt (dropNoneKeys m ks) k ≠ some Val.vnone := by
  induction ks with
  | nil => simp at h
  | cons k0 tail ih =>
    intro m
    show dgetOpt (dropNoneKeys (if dgetOpt m k0 = some Val.vnone then dremove m k0 else m) tail) k
        ≠ some Val.vnone
    by_cases hk : k ∈ tail
    · exact ih hk _
    · have hk0 : k = k0 := by
        rcases List.mem_cons.mp h with hh | hh
        · exact hh
        · exact absurd hh hk
      subst hk0
      rw [dgetOpt_dropNone_not_mem tail k hk]
      by_cases hc : dgetOpt m k = some Val.vnone
      · rw [if_pos hc, dgetOpt_dremove_self]
        simp
      · rw [if_neg hc]
        exact hc

theorem matchYear4_self (s y : String) (h : matchYear4 s = some y) :
    y ≠ "" ∧ matchYear4 y = some y := by
  unfold matchYear4 at h
  rcases hs : s.toList with _ | ⟨a, _ | ⟨b, _ | ⟨c, _ | ⟨d, rest⟩⟩⟩⟩ <;> rw [hs] at h
  · simp at h
  · simp at h
  · simp at h
  · simp at h
  · have h2 : (if (a.isDigit && b.isDigit && c.isDigit && d.isDigit) = true
        then some (String.mk [a, b, c, d]) else none) = some y := h
    by_cases hd4 : (a.isDigit && b.isDigit && c.isDigit && d.isDigit) = true
    · rw [if_pos hd4, Option.some_inj] at h2
      subst h2
      refine ⟨?_, ?_⟩
      · intro he
        have hdata := congrArg String.data he
        simp at hdata
      · show (if (a.isDigit && b.isDigit && c.isDigit && d.isDigit) = true
            then some (String.mk [a, b, c, d]) else none) = some (String.mk [a, b, c, d])
        rw [if_pos hd4]
    · rw [if_neg hd4] at h2
      simp at h2

theorem yearFrom_to_match : ∀ (v : Val) (y : String), yearFrom v = some y →
    y ≠ "" ∧ matchYear4 y = some y
  | .vnone, y, h => by simp [yearFrom] at h
  | .vint n, y, h => by
    unfold yearFrom at h
    by_cases hn : n = 0
    · simp [hn] at h
    · rw [if_neg hn] at h
      exact matchYear4_self _ _ h
  | .vstr s, y, h => by
    unfold yearFrom at h
    by_cases hs : s = ""
    · simp [hs] at h
    · rw [if_neg hs] at h
      exact matchYear4_self _ _ h
  | .vbytes bs, y, h => by
    unfold yearFrom at h
    by_cases hb : bs.isEmpty = true
    · simp [hb] at h
    · rw [if_neg hb] at h
      exact matchYear4_self _ _ h
  | .vlist .nil, y, h => by simp [yearFrom] at h
  | .vlist (.cons hd tl), y, h => yearFrom_to_match hd y (by simpa [yearFrom] using h)

theorem yearFrom_self (v : Val) (y : String) (h : yearFrom v = some y) :
    yearFrom (.vstr y) = some y := by
  obtain ⟨hne, hm⟩ := yearFrom_to_match v y h
  show (if y = "" then none else matchYear4 y) = some y
  rw [if_neg hne]
  exact hm

theorem artistFix_truthy_eq (m : PDict) :
    (dget (artistFix m) "artist").truthy = (dget (artistFix m) "album_artist").truthy := by
  unfold artistFix
  by_cases h1 : (!(dget m "artist").truthy && (dget m "album_artist").truthy) = true
  · rw [if_pos h1]
    have hart : dget (dset m "artist" (dget m "album_artist")) "artist"
        = dget m "album_artist" := dget_dset_self m "artist" _
    have haa : dget (dset m "artist" (dget m "album_artist")) "album_artist"
        = dget m "album_artist" := dget_dset_ne m "album_artist" "artist" _ (by decide)
    rw [Bool.and_eq_true, Bool.not_eq_true'] at h1
    have h2 : ¬((!(dget (dset m "artist" (dget m "album_artist")) "album_artist").truthy &&
        (dget (dset m "artist" (dget m "album_artist")) "artist").truthy) = true) := by
      rw [haa, h1.2]
      simp
    rw [if_neg h2, hart, haa]
  · rw [if_neg h1]
    by_cases h2 : (!(dget m "album_artist").truthy && (dget m "artist").truthy) = true
    · rw [if_pos h2]
      have hart : dget (dset m "album_artist" (dget m "artist")) "artist"
          = dget m "artist" := dget_dset_ne m "artist" "album_artist" _ (by decide)
      have haa : dget (dset m "album_artist" (dget m "artist")) "album_artist"
          = dget m "artist" := dget_dset_self m "album_artist" _
      rw [hart, haa]
    · rw [if_neg h2]
      rw [Bool.and_eq_true, Bool.not_eq_true'] at h1 h2
      cases hta : (dget m "artist").truthy <;> cases htaa : (dget m "album_artist").truthy
      · rfl
      · exact absurd ⟨hta, htaa⟩ h1
      · exact absurd ⟨htaa, hta⟩ h2
      · rfl

theorem artistFix_id (m : PDict)
    (h : (dget m "artist").truthy = (dget m "album_artist").truthy) :
    artistFix m = m := by
  unfold artistFix
  have h1 : ¬((!(dget m "artist").truthy && (dget m "album_artist").truthy) = true) := by
    rw [h]
    cases (dget m "album_artist").truthy <;> simp
  have h2 : ¬((!(dget m "album_artist").truthy && (dget m "artist").truthy) = true) := by
    rw [h]
    cases (dget m "album_artist").truthy <;> simp
  rw [if_neg h1, if_neg h2]

theorem dgetOpt_numFix_ne (key : String) (m : PDict) (k : String) (h : key ≠ k) :
    dgetOpt (numFix key m) k = dgetOpt m k := by
  unfold numFix
  cases firstInt (dget m key) with
  | some n => exact dgetOpt_dset_ne m k key _ h
  | none => exact dgetOpt_dremove_ne m k key h

theorem dget_numFix_ne (key : String) (m : PDict) (k : String) (h : key ≠ k) :
    dget (numFix key m) k = dget m k := by
  simp [dget, dgetOpt_numFix_ne key m k h]

theorem numFix_post (key : String) (m : PDict) :
    dgetOpt (numFix key m) key = none ∨
      ∃ n : Int, dgetOpt (numFix key m) key = some (Val.vint n) := by
  unfold numFix
  cases firstInt (dget m key) with
  | some n => exact Or.inr ⟨n, dgetOpt_dset_self m key _⟩
  | none => exact Or.inl (dgetOpt_dremove_self m key)

theorem numFix_id (key : String) (m : PDict)
    (h : dgetOpt m key = none ∨ ∃ n : Int, dgetOpt m key = some (Val.vint n)) :
    numFix key m = m := by
  unfold numFix
  rcases h with h | ⟨n, h⟩
  · have hv : dget m key = Val.vnone := by simp [dget, h]
    rw [hv]
    exact dremove_absent m key h
  · have hv : dget m key = Val.vint n := by simp [dget, h]
    rw [hv]
    exact dset_dgetOpt_self m key (Val.vint n) h

theorem dgetOpt_dateFix_ne (m : PDict) (k : String) (h : k ≠ "date") :
    dgetOpt (dateFix m) k = dgetOpt m k := by
  unfold dateFix
  cases yearFrom (pyOr (dget m "release_date") (dget m "date")) with
  | none => rfl
  | some y =>
    show dgetOpt (if y ≠ "" then dset m "date" (Val.vstr y) else m) k = dgetOpt m k
    by_cases hy : y ≠ ""
    · rw [if_pos hy]
      exact dgetOpt_dset_ne m k "date" _ (Ne.symm h)
    · rw [if_neg hy]

theorem dget_dateFix_ne (m : PDict) (k : String) (h : k ≠ "date") :
    dget (dateFix m) k = dget m k := by
  simp [dget, dgetOpt_dateFix_ne m k h]

/-! ### Claim theorems -/

/-- C1: `TagLookup._merge(dst, src)` never overwrites a field of `dst`
that is already non-empty (truthy): after the merge, every such field
still holds its old value, so a field set by a higher-precedence
(earlier) source is never replaced by a lower-precedence one. -/
theorem merge_never_overwrites_nonempty (dst src : PDict) (k : String)
    (h : (dget dst k).truthy = true) : dget (merge dst src) k = dget dst k :=
  dget_merge_truthy dst src k h

theorem merge_never_overwrites_nonempty_witness :
    (dget [("title", Val.vstr "A")] "title").truthy = true ∧
    dget (merge [("title", Val.vstr "A")] [("title", Val.vstr "B")]) "title"
      = dget [("title", Val.vstr "A")] "title" :=
  ⟨by decide, merge_never_overwrites_nonempty _ _ _ (by decide)⟩

/-- C10: the resolver's merge and hint application treat any falsy field
value as unset, not only a missing one: when `dst[k]` is `""` or `0`,
`merge(dst, src)` overwrites it with `src[k]` whenever `src[k]` is not
`None`; a `src` value of `None` is never copied even into an empty
destination field; and a truthy hint likewise lands on a `""`/`0` field
under `prefer_existing`. -/
theorem merge_and_hints_treat_falsy_as_unset :
    (∀ (dst src : PDict) (k : String) (v : Val),
      (src.map Prod.fst).Nodup →
      (dget dst k = Val.vstr "" ∨ dget dst k = Val.vint 0) →
      dgetOpt src k = some v → v ≠ Val.vnone →
      dget (merge dst src) k = v) ∧
    (∀ (dst src : PDict) (k : String),
      (src.map Prod.fst).Nodup →
      dgetOpt src k = some Val.vnone →
      dget (merge dst src) k = dget dst k) ∧
    (∀ (m hints : PDict) (k : String) (v : Val),
      (hints.map Prod.fst).Nodup →
      (dget m k = Val.vstr "" ∨ dget m k = Val.vint 0) →
      dgetOpt hints k = some v → v.truthy = true →
      dget (applyHints true m hints) k = v) := by
  refine ⟨fun dst src k v hn hf hs hv => ?_, fun dst src k hn hs => ?_,
    fun m hints k v hn hf hs hv => ?_⟩
  · have ht : (dget dst k).truthy = false := by
      rcases hf with hf | hf <;> rw [hf] <;> rfl
    exact dget_merge_falsy src dst k v hn ht hs hv
  · exact dget_merge_none src dst k hn hs
  · have ht : (dget m k).truthy = false := by
      rcases hf with hf | hf <;> rw [hf] <;> rfl
    exact dget_applyHints_falsy_dst hints m k v hn ht hs hv

theorem merge_and_hints_treat_falsy_as_unset_witness :
    dget (merge [("genre", Val.vstr "")] [("genre", Val.vstr "Rock")]) "genre"
      = Val.vstr "Rock" ∧
    dget (merge [("track_number", Val.vint 0)] [("track_number", Val.vnone)]) "track_number"
      = Val.vint 0 ∧
    dget (applyHints true [("artist", Val.vstr "")] [("artist", Val.vstr "Y")]) "artist"
      = Val.vstr "Y" :=
  ⟨merge_and_hints_treat_falsy_as_unset.1 _ _ "genre" _ (by decide)
      (Or.inl (by decide)) (by decide) (by decide),
    (merge_and_hints_treat_falsy_as_unset.2.1 _ _ "track_number" (by decide)
      (by decide)).trans (by decide),
    merge_and_hints_treat_falsy_as_unset.2.2 _ _ "artist" _ (by decide)
      (Or.inl (by decide)) (by decide) (by decide)⟩

/-- C5: when the best (highest) AcoustID score is strictly below the
configured confidence threshold, the fingerprint lookup surfaces no
identifiers (`(None, None)`), appends exactly one warning mentioning the
score, and returns normally (the gated path is a total function — no
error is raised). -/
theorem fp_low_confidence_gating (cfg : LookupConfig) (pathName : String)
    (artist title : Val) (results : List AcoustResult) (ws : List (String × String))
    (h : (results.map AcoustResult.score).foldl max 0 < cfg.min_confidence) :
    fpLookupPure cfg pathName artist title results ws
      = ((Val.vnone, Val.vnone),
        ws ++ [(pathName, "Low AcoustID score "
            ++ fmt2 ((results.map AcoustResult.score).foldl max 0))]) := by
  have hb := fpScan_bestScore artist title results
  simp only [fpLookupPure]
  rw [hb, if_pos h]

theorem fp_low_confidence_gating_witness :
    ((fpRespLow.map AcoustResult.score).foldl max 0 < cfgDefault.min_confidence) ∧
    fpLookupPure cfgDefault "x.mp3" Val.vnone Val.vnone fpRespLow []
      = ((Val.vnone, Val.vnone),
        [("x.mp3", "Low AcoustID score "
            ++ fmt2 ((fpRespLow.map AcoustResult.score).foldl max 0))]) :=
  ⟨by decide,
    (fp_low_confidence_gating cfgDefault "x.mp3" Val.vnone Val.vnone fpRespLow []
      (by decide)).trans (by rw [List.nil_append])⟩

/-- C9 counterexample: on a response whose second entry scores highest
(0.9 ≥ threshold 0.5), the code surfaces recording id `"R1"` from the
first entry holding a recordings list although the highest-scoring
candidate — tracked by the scan itself in `best_rec` — is `"R2"`. -/
theorem fp_best_candidate_not_surfaced_cex :
    (fpScan Val.vnone Val.vnone fpRespCex).bestRec = Val.vstr "R2" ∧
    (fpLookupPure cfgDefault "x" Val.vnone Val.vnone fpRespCex []).1.1 = Val.vstr "R1" ∧
    Val.vstr "R1" ≠ Val.vstr "R2" := by decide

/-- C9 amended: when the best score meets the threshold, the surfaced
identifiers are those of the FIRST response entry with a nonempty
recordings list (its first recording, and that recording's first release
group), independent of which candidate scored highest; no warning is
appended, and nothing else (in particular not the locally patched
fallback title/artist strings) is part of the result. -/
theorem fp_ids_from_first_entry_with_recordings (cfg : LookupConfig) (pathName : String)
    (artist title : Val) (results : List AcoustResult) (ws : List (String × String))
    (h : ¬ (results.map AcoustResult.score).foldl max 0 < cfg.min_confidence) :
    fpLookupPure cfg pathName artist title results ws
      = ((match firstWithRecordings results with
          | none => (Val.vnone, Val.vnone)
          | some rec0 =>
            (rec0.recid,
              match rec0.releasegroups with
              | [] => Val.vnone
              | rg :: _ => rg.rgid)), ws) := by
  have hb := fpScan_bestScore artist title results
  simp only [fpLookupPure]
  rw [hb, if_neg h, fpExtractIds_eq_spec]

theorem fp_ids_from_first_entry_with_recordings_witness :
    (¬ (fpRespCex.map AcoustResult.score).foldl max 0 < cfgDefault.min_confidence) ∧
    fpLookupPure cfgDefault "x" Val.vnone Val.vnone fpRespCex []
      = ((Val.vstr "R1", Val.vstr "G1"), []) :=
  ⟨by decide,
    (fp_ids_from_first_entry_with_recordings cfgDefault "x" Val.vnone Val.vnone fpRespCex []
      (by decide)).trans (by decide)⟩

/-- C2 counterexample: with `prefer_existing_tags = False`, an existing
embedded title `"A"` and a catalog (MusicBrainz) title `"B"`, the
resolved title is still `"A"`, not the catalog's `"B"` — the flag governs
hint application only, and the catalog merge never overwrites a
non-empty field. -/
theorem lookup_prefer_false_cex :
    cfgPreferFalse.prefer_existing = false ∧
    dget ftTitleA "title" = Val.vstr "A" ∧
    dget mbTitleB "title" = Val.vstr "B" ∧
    dget (lookup cfgPreferFalse "x.mp3" [] (envWith (.ok ftTitleA) (.ok mbTitleB))).1 "title"
      = Val.vstr "A" ∧
    Val.vstr "A" ≠ Val.vstr "B" := by decide

/-- C2 amended: if the existing embedded tags supply a non-empty title and
the hints carry no truthy title, the resolved title equals the existing
tag's title under BOTH values of `prefer_existing_tags` (and any catalog
outcome): the flag governs only whether hints may overwrite, and the
catalog merge never replaces a non-empty title. -/
theorem lookup_title_existing_tag_wins (cfg : LookupConfig) (pathName : String)
    (hints : PDict) (env : LookupEnv) (ft : PDict)
    (hft : env.fileTags = .ok ft)
    (htitle : (dget ft "title").truthy = true)
    (hhints : ∀ v : Val, ("title", v) ∈ hints → v.truthy = false) :
    dget (lookup cfg pathName hints env).1 "title" = dget ft "title" := by
  have h1 : dget (applyHints cfg.prefer_existing ft hints) "title" = dget ft "title" :=
    dget_applyHints_falsy cfg.prefer_existing ft hints "title" hhints
  have ht1 : (dget (applyHints cfg.prefer_existing ft hints) "title").truthy = true := by
    rw [h1]; exact htitle
  unfold lookup tagsStep
  rw [hft]
  dsimp only
  by_cases he : cfg.enable = false
  · rw [if_pos he]
    exact h1
  · rw [if_neg he]
    rcases hfp : fpStep cfg pathName env
        (pyOr (dget (applyHints cfg.prefer_existing ft hints) "artist") (dget hints "artist"))
        (pyOr (dget (applyHints cfg.prefer_existing ft hints) "title") (dget hints "title"))
        [] with ⟨rec, rel, w3⟩
    dsimp only
    rcases hmb : mbStep pathName env
        (rec.truthy || rel.truthy
          || (pyOr (dget (applyHints cfg.prefer_existing ft hints) "artist")
              (dget hints "artist")).truthy
          || (pyOr (dget (applyHints cfg.prefer_existing ft hints) "title")
              (dget hints "title")).truthy)
        (applyHints cfg.prefer_existing ft hints) w3 with ⟨m2, mbo, w4⟩
    have h2 : dget m2 "title" = dget ft "title" := by
      have hl := dget_mbStep_truthy pathName env
        (rec.truthy || rel.truthy
          || (pyOr (dget (applyHints cfg.prefer_existing ft hints) "artist")
              (dget hints "artist")).truthy
          || (pyOr (dget (applyHints cfg.prefer_existing ft hints) "title")
              (dget hints "title")).truthy)
        (applyHints cfg.prefer_existing ft hints) w3 "title" ht1
      rw [hmb] at hl
      exact hl.trans h1
    have ht2 : (dget m2 "title").truthy = true := by rw [h2]; exact htitle
    dsimp only
    rcases hcv : coverStep cfg pathName env rel mbo m2 w4 with ⟨m3, w5⟩
    have h3 : dget m3 "title" = dget ft "title" := by
      have hl := dget_coverStep_ne cfg pathName env rel mbo m2 w4 "title" (by decide)
      rw [hcv] at hl
      exact hl.trans h2
    have ht3 : (dget m3 "title").truthy = true := by rw [h3]; exact htitle
    dsimp only
    rcases hlf : lastfmStep cfg pathName env
        (pyOr (dget (applyHints cfg.prefer_existing ft hints) "artist") (dget hints "artist"))
        (pyOr (dget (applyHints cfg.prefer_existing ft hints) "title") (dget hints "title"))
        m3 w5 with ⟨m4, w6⟩
    have h4 : dget m4 "title" = dget ft "title" := by
      have hl := dget_lastfmStep_truthy cfg pathName env
        (pyOr (dget (applyHints cfg.prefer_existing ft hints) "artist") (dget hints "artist"))
        (pyOr (dget (applyHints cfg.prefer_existing ft hints) "title") (dget hints "title"))
        m3 w5 "title" ht3
      rw [hlf] at hl
      exact hl.trans h3
    have ht4 : (dget m4 "title").truthy = true := by rw [h4]; exact htitle
    dsimp only
    rcases hdc : discogsStep cfg pathName env
        (pyOr (dget (applyHints cfg.prefer_existing ft hints) "artist") (dget hints "artist"))
        m4 w6 with ⟨m5, w7⟩
    have h5 : dget m5 "title" = dget ft "title" := by
      have hl := dget_discogsStep_truthy cfg pathName env
        (pyOr (dget (applyHints cfg.prefer_existing ft hints) "artist") (dget hints "artist"))
        m4 w6 "title" ht4
      rw [hdc] at hl
      exact hl.trans h4
    exact h5

theorem lookup_title_existing_tag_wins_witness :
    dget (lookup cfgDefault "x.mp3" [] (envWith (.ok ftTitleA) (.ok mbTitleB))).1 "title"
      = dget ftTitleA "title" :=
  lookup_title_existing_tag_wins cfgDefault "x.mp3" [] (envWith (.ok ftTitleA) (.ok mbTitleB))
    ftTitleA rfl (by decide) (fun v hv => absurd hv (List.not_mem_nil _))

/-- C4 counterexample: the warning recorded for a failed attempt has the
form `(context, "yt-dlp failed on attempt k: <detail>")` (resp. `spotDL`),
not the claimed `(context, "attempt k failed: <detail>")`. -/
theorem retry_warning_format_cex :
    (runYtdlp opFailAlways "c" []).2.head? = some ("c", "yt-dlp failed on attempt 1: boom1") ∧
    (runSpotdl opSpFailAlways "c" []).2.head? = some ("c", "spotDL failed on attempt 1: err1") ∧
    ("c", "yt-dlp failed on attempt 1: boom1") ≠ ("c", "attempt 1 failed: boom1") := by
  decide

/-- C4 amended: with `MAX_RETRIES = 3`, an operation failing on attempts 1
and 2 and succeeding on 3 returns the success value with exactly two
warnings recorded; one failing on all three attempts raises a terminal
error embedding the attempt count and the last failure detail, with
exactly three warnings recorded first.  Each failed attempt `k` appends
`(context, "yt-dlp failed on attempt k: <detail>")` for the YouTube
wrapper and `(context, "spotDL failed on attempt k: <detail>")` for the
spotDL wrapper. -/
theorem retry_law :
    (∀ (α : Type) (op : Nat → Except String α) (ctx : String) (ws : List (String × String))
      (e1 e2 : String) (a : α),
      op 1 = .error e1 → op 2 = .error e2 → op 3 = .ok a →
      runYtdlp op ctx ws
        = (.ok a, ws ++ [(ctx, "yt-dlp failed on attempt 1: " ++ e1),
            (ctx, "yt-dlp failed on attempt 2: " ++ e2)])) ∧
    (∀ (α : Type) (op : Nat → Except String α) (ctx : String) (ws : List (String × String))
      (e1 e2 e3 : String),
      op 1 = .error e1 → op 2 = .error e2 → op 3 = .error e3 →
      runYtdlp op ctx ws
        = (.error ("YouTube download failed after 3 attempts: " ++ e3),
           ws ++ [(ctx, "yt-dlp failed on attempt 1: " ++ e1),
             (ctx, "yt-dlp failed on attempt 2: " ++ e2),
             (ctx, "yt-dlp failed on attempt 3: " ++ e3)])) ∧
    (∀ (op : Nat → Except String Unit) (ctx : String) (ws : List (String × String))
      (e1 e2 : String),
      op 1 = .error e1 → op 2 = .error e2 → op 3 = .ok () →
      runSpotdl op ctx ws
        = (.ok (), ws ++ [(ctx, "spotDL failed on attempt 1: " ++ e1),
            (ctx, "spotDL failed on attempt 2: " ++ e2)])) ∧
    (∀ (op : Nat → Except String Unit) (ctx : String) (ws : List (String × String))
      (e1 e2 e3 : String),
      op 1 = .error e1 → op 2 = .error e2 → op 3 = .error e3 →
      runSpotdl op ctx ws
        = (.error ("spotDL CLI failed after 3 attempts: " ++ e3),
           ws ++ [(ctx, "spotDL failed on attempt 1: " ++ e1),
             (ctx, "spotDL failed on attempt 2: " ++ e2),
             (ctx, "spotDL failed on attempt 3: " ++ e3)])) := by
  refine ⟨fun A op ctx ws e1 e2 a h1 h2 h3 => ?_, fun A op ctx ws e1 e2 e3 h1 h2 h3 => ?_,
    fun op ctx ws e1 e2 h1 h2 h3 => ?_, fun op ctx ws e1 e2 e3 h1 h2 h3 => ?_⟩ <;>
    simp [runYtdlp, runSpotdl, runYtdlpLoop, runSpotdlLoop, MAX_RETRIES, h1, h2, h3] <;>
    (and_intros <;> rfl)

theorem retry_law_witness :
    runYtdlp opThirdTimeLucky "c" []
      = (.ok "info", [] ++ [("c", "yt-dlp failed on attempt 1: boom1"),
          ("c", "yt-dlp failed on attempt 2: boom2")]) ∧
    runYtdlp opFailAlways "c" []
      = (.error ("YouTube download failed after 3 attempts: " ++ "boom3"),
         [] ++ [("c", "yt-dlp failed on attempt 1: boom1"),
           ("c", "yt-dlp failed on attempt 2: boom2"),
           ("c", "yt-dlp failed on attempt 3: boom3")]) ∧
    runSpotdl opSpThirdTimeLucky "c" []
      = (.ok (), [] ++ [("c", "spotDL failed on attempt 1: err1"),
          ("c", "spotDL failed on attempt 2: err2")]) ∧
    runSpotdl opSpFailAlways "c" []
      = (.error ("spotDL CLI failed after 3 attempts: " ++ "err3"),
         [] ++ [("c", "spotDL failed on attempt 1: err1"),
           ("c", "spotDL failed on attempt 2: err2"),
           ("c", "spotDL failed on attempt 3: err3")]) :=
  ⟨retry_law.1 String opThirdTimeLucky "c" [] "boom1" "boom2" "info" rfl rfl rfl,
    retry_law.2.1 String opFailAlways "c" [] "boom1" "boom2" "boom3" rfl rfl rfl,
    retry_law.2.2.1 opSpThirdTimeLucky "c" [] "err1" "err2" rfl rfl rfl,
    retry_law.2.2.2 opSpFailAlways "c" [] "err1" "err2" "err3" rfl rfl rfl⟩

/-- C6 counterexample: an item whose embed raises ends up in the successes
list with a `"Metadata embed error"` WARNING; the failures list stays
empty — the item is not reported among the failures. -/
theorem embed_error_not_failure_cex :
    (handleBatchTail itemEnvEmbedFails [cexItem] [] []).2.1 = [] ∧
    (handleBatchTail itemEnvEmbedFails [cexItem] [] []).1 = [(cexItem.1, "song.mp3")] ∧
    (handleBatchTail itemEnvEmbedFails [cexItem] [] []).2.2
      = [("song.mp3", "Metadata embed error: boom")] := by decide

/-- C6 amended: a tagging error raised while embedding is degraded to a
`(path, "Metadata embed error: <detail>")` warning; the item remains in
the successes list, the failures list is passed through untouched, and
every other item of the batch is still processed. -/
theorem embed_error_degrades_to_warning (env : PDict × String → ItemEnv)
    (successes : List (PDict × String)) (failures warnings : List (String × String)) :
    (handleBatchTail env successes failures warnings).2.1 = failures ∧
    (handleBatchTail env successes failures warnings).1
      = successes.map (fun it => ((env it).enriched, it.2)) ∧
    (∀ item, item ∈ successes → ∀ e : String, (env item).embedResult = .error e →
      (item.2, "Metadata embed error: " ++ e)
        ∈ (handleBatchTail env successes failures warnings).2.2) := by
  unfold handleBatchTail
  rw [processSuccesses_spec]
  refine ⟨rfl, rfl, fun item hmem e he => ?_⟩
  apply List.mem_append_right
  apply List.mem_flatten.mpr
  refine ⟨itemWarnings env item, List.mem_map_of_mem _ hmem, ?_⟩
  unfold itemWarnings
  rw [he]
  exact List.mem_append_right _ (List.mem_singleton.mpr rfl)

theorem embed_error_degrades_to_warning_witness :
    ("song.mp3", "Metadata embed error: " ++ "boom")
      ∈ (handleBatchTail itemEnvEmbedFails [cexItem] [] []).2.2 :=
  (embed_error_degrades_to_warning itemEnvEmbedFails [cexItem] [] []).2.2 cexItem
    (List.mem_singleton.mpr rfl) "boom" rfl

/-- C7 counterexample: `embed` on a supported, perfectly readable `.m4a`
container still raises when `meta["track_number"]` is not coercible —
`int(trk)` runs outside any `try` block — so unsupported-format and
unreadable-container are not the only raising conditions. -/
theorem embed_raises_beyond_container_cex :
    pyLower (pySuffix "t.m4a") = ".m4a" ∧
    fsOk.m4a.openExc = none ∧
    fsOk.m4a.saveExc = none ∧
    (embed "t.m4a" fsOk [("track_number", Val.vstr "abc")] none).1
      = .error ("invalid literal for int(): " ++ pyRepr (Val.vstr "abc")) := by decide

/-- C7 amended: an unsupported suffix raises the typed
`Unsupported tagging format` error before the file is touched, leaving it
unchanged; `embed` raises only on unsupported format, unreadable/corrupt
container, a failing save (write failure), or — in the M4A path — values
whose `int()` / `.encode()` conversion raises; with a readable container,
convertible values and a successful save, it returns normally. -/
theorem embed_raise_conditions :
    (∀ (fileName : String) (fs : FileState) (meta : PDict) (cb : Option (List Nat)),
      pyLower (pySuffix fileName) ≠ ".mp3" →
      pyLower (pySuffix fileName) ≠ ".m4a" →
      pyLower (pySuffix fileName) ≠ ".mp4" →
      embed fileName fs meta cb
        = (.error ("Unsupported tagging format: " ++ pyLower (pySuffix fileName)), fs)) ∧
    (∀ (fileName : String) (fs : FileState) (meta : PDict) (cb : Option (List Nat)) (e : String),
      (embed fileName fs meta cb).1 = .error e →
      (pyLower (pySuffix fileName) ≠ ".mp3" ∧ pyLower (pySuffix fileName) ≠ ".m4a" ∧
        pyLower (pySuffix fileName) ≠ ".mp4") ∨
      (pyLower (pySuffix fileName) = ".mp3" ∧
        (fs.mp3.openRes ≠ Mp3Open.ok ∨ fs.mp3.saveExc ≠ none)) ∨
      ((pyLower (pySuffix fileName) = ".m4a" ∨ pyLower (pySuffix fileName) = ".mp4") ∧
        (fs.m4a.openExc ≠ none ∨ fs.m4a.saveExc ≠ none ∨
          ∃ err, m4aWrites meta cb = .error err))) ∧
    (∀ (fileName : String) (fs : FileState) (meta : PDict) (cb : Option (List Nat)),
      pyLower (pySuffix fileName) = ".mp3" → fs.mp3.openRes = Mp3Open.ok →
      fs.mp3.saveExc = none → (embed fileName fs meta cb).1 = .ok ()) ∧
    (∀ (fileName : String) (fs : FileState) (meta : PDict) (cb : Option (List Nat))
      (ws : List (String × Option Val)),
      (pyLower (pySuffix fileName) = ".m4a" ∨ pyLower (pySuffix fileName) = ".mp4") →
      fs.m4a.openExc = none → fs.m4a.saveExc = none → m4aWrites meta cb = .ok ws →
      (embed fileName fs meta cb).1 = .ok ()) := by
  refine ⟨fun fileName fs meta cb h1 h2 h3 => ?_, fun fileName fs meta cb e h => ?_,
    fun fileName fs meta cb h1 h2 h3 => ?_, fun fileName fs meta cb ws h1 h2 h3 h4 => ?_⟩
  · unfold embed
    simp [h1, h2, h3]
  · unfold embed at h
    by_cases hmp3 : pyLower (pySuffix fileName) = ".mp3"
    · rw [if_pos hmp3] at h
      refine Or.inr (Or.inl ⟨hmp3, ?_⟩)
      unfold embedMp3 at h
      cases hopen : fs.mp3.openRes with
      | headerNotFound => exact Or.inl (by simp)
      | failed e2 => exact Or.inl (by simp)
      | ok =>
        rw [hopen] at h
        cases hsave : fs.mp3.saveExc with
        | some e2 => exact Or.inr (by simp)
        | none =>
          rw [hsave] at h
          simp at h
    · rw [if_neg hmp3] at h
      by_cases hm4a : (pyLower (pySuffix fileName) = ".m4a" ∨ pyLower (pySuffix fileName) = ".mp4")
      · have hb : (decide (pyLower (pySuffix fileName) = ".m4a")
            || decide (pyLower (pySuffix fileName) = ".mp4")) = true := by
          rcases hm4a with hh | hh <;> simp [hh]
        rw [if_pos hb] at h
        refine Or.inr (Or.inr ⟨hm4a, ?_⟩)
        unfold embedM4a at h
        cases hopen : fs.m4a.openExc with
        | some e2 => exact Or.inl (by simp)
        | none =>
          rw [hopen] at h
          cases hws : m4aWrites meta cb with
          | error err => exact Or.inr (Or.inr ⟨err, rfl⟩)
          | ok ws2 =>
            rw [hws] at h
            cases hsave : fs.m4a.saveExc with
            | some e2 => exact Or.inr (Or.inl (by simp))
            | none =>
              rw [hsave] at h
              simp at h
      · exact Or.inl ⟨hmp3, fun hh => hm4a (Or.inl hh), fun hh => hm4a (Or.inr hh)⟩
  · unfold embed embedMp3
    rw [if_pos h1, h2, h3]
  · have hb : (decide (pyLower (pySuffix fileName) = ".m4a")
        || decide (pyLower (pySuffix fileName) = ".mp4")) = true := by
      rcases h1 with hh | hh <;> simp [hh]
    have hne : pyLower (pySuffix fileName) ≠ ".mp3" := by
      rcases h1 with hh | hh <;> rw [hh] <;> decide
    unfold embed embedM4a
    rw [if_neg hne, if_pos hb, h2, h4, h3]

theorem embed_raise_conditions_witness :
    embed "t.txt" fsOk [] none
      = (.error ("Unsupported tagging format: " ++ pyLower (pySuffix "t.txt")), fsOk) :=
  embed_raise_conditions.1 "t.txt" fsOk [] none (by decide) (by decide) (by decide)

/-- C8 counterexample: the three base frames are written unconditionally
from `meta.get(k, "")` — embedding a record with NO title into an MP3 that
already carries `TIT2 = "Old"` replaces it with the empty string instead
of leaving the container value unchanged. -/
theorem embed_overwrites_absent_fields_cex :
    dgetOpt ([] : PDict) "title" = none ∧
    dget (fsOldTitle.mp3.tags.getD []) "TIT2" = Val.vstr "Old" ∧
    (embed "t.mp3" fsOldTitle [] none).1 = .ok () ∧
    dget (((embed "t.mp3" fsOldTitle [] none).2.mp3.tags).getD []) "TIT2" = Val.vstr "" ∧
    (Val.vstr "" : Val) ≠ Val.vstr "Old" := by decide

/-- C8 amended: `title` / `artist` / `album` (and their M4A atom
counterparts) are ALWAYS written, from `meta.get(k, "")` — an absent field
overwrites the container value with the empty string; every other
supported field is written exactly when its source guard holds (truthy
value, or `is not None` for the numeric ones) and otherwise the
container's existing value for that tag is left unchanged. -/
theorem embed_fields_guarded (t0 : PDict) (meta : PDict) (cb : Option (List Nat)) :
    (dgetOpt (applyWrites t0 (mp3Writes meta cb)) "TIT2"
      = some (dgetD meta "title" (.vstr ""))) ∧
    (dgetOpt (applyWrites t0 (mp3Writes meta cb)) "TPE1"
      = some (dgetD meta "artist" (.vstr ""))) ∧
    (dgetOpt (applyWrites t0 (mp3Writes meta cb)) "TALB"
      = some (dgetD meta "album" (.vstr ""))) ∧
    ((dget meta "album_artist").truthy = false →
      dgetOpt (applyWrites t0 (mp3Writes meta cb)) "TPE2" = dgetOpt t0 "TPE2") ∧
    ((dget meta "album_artist").truthy = true →
      dgetOpt (applyWrites t0 (mp3Writes meta cb)) "TPE2" = some (dget meta "album_artist")) ∧
    (dget meta "track_number" = Val.vnone →
      dgetOpt (applyWrites t0 (mp3Writes meta cb)) "TRCK" = dgetOpt t0 "TRCK") ∧
    (dget meta "track_number" ≠ Val.vnone →
      dgetOpt (applyWrites t0 (mp3Writes meta cb)) "TRCK"
        = some (.vstr (pyToString (dget meta "track_number")))) ∧
    (dget meta "disc_number" = Val.vnone →
      dgetOpt (applyWrites t0 (mp3Writes meta cb)) "TPOS" = dgetOpt t0 "TPOS") ∧
    (dget meta "disc_number" ≠ Val.vnone →
      dgetOpt (applyWrites t0 (mp3Writes meta cb)) "TPOS"
        = some (.vstr (pyToString (dget meta "disc_number")))) ∧
    ((dget meta "release_date").truthy = false →
      dgetOpt (applyWrites t0 (mp3Writes meta cb)) "TDRC" = dgetOpt t0 "TDRC") ∧
    ((dget meta "release_date").truthy = true →
      dgetOpt (applyWrites t0 (mp3Writes meta cb)) "TDRC"
        = some (.vstr (pyToString (dget meta "release_date")))) ∧
    ((dget meta "genre").truthy = false →
      dgetOpt (applyWrites t0 (mp3Writes meta cb)) "TCON" = dgetOpt t0 "TCON") ∧
    ((dget meta "genre").truthy = true →
      dgetOpt (applyWrites t0 (mp3Writes meta cb)) "TCON" = some (dget meta "genre")) ∧
    (∀ (n : String) (f : ID3File), f.openRes = Mp3Open.ok → f.saveExc = none →
      embedMp3 n f meta cb
        = (.ok (), { f with tags := some (applyWrites (f.tags.getD []) (mp3Writes meta cb)) })) ∧
    (∀ ws, m4aWrites meta cb = .ok ws →
      (dgetOpt (applyWrites t0 ws) "\xa9nam"
        = some (pyOr (dgetD meta "title" (.vstr "")) (.vstr ""))) ∧
      ((dget meta "album_artist").truthy = false →
        dgetOpt (applyWrites t0 ws) "aART" = dgetOpt t0 "aART") ∧
      ((dget meta "album_artist").truthy = true →
        dgetOpt (applyWrites t0 ws) "aART" = some (dget meta "album_artist")) ∧
      (dget meta "track_number" = Val.vnone →
        dgetOpt (applyWrites t0 ws) "trkn" = dgetOpt t0 "trkn") ∧
      ((dget meta "release_date").truthy = false →
        dgetOpt (applyWrites t0 ws) "\xa9day" = dgetOpt t0 "\xa9day") ∧
      ((dget meta "genre").truthy = false →
        dgetOpt (applyWrites t0 ws) "\xa9gen" = dgetOpt t0 "\xa9gen") ∧
      (∀ (g : MP4File), g.openExc = none → g.saveExc = none →
        embedM4a g meta cb
          = (.ok (), { g with tags := some (applyWrites (g.tags.getD []) ws) }))) := by
  have hnod : ((mp3Writes meta cb).map Prod.fst).Nodup := by
    have hkeys : (mp3Writes meta cb).map Prod.fst
        = ["TIT2", "TPE1", "TALB", "TPE2", "TRCK", "TPOS", "TDRC", "TCON", "TCOM", "TPUB",
           "TSRC", "TBPM", "USLT", "COMM", "TCOP", "TENC", "WXXX",
           "TXXX:POPULARITY", "TXXX:MOOD", "TXXX:SCENE", "APIC"] := rfl
    rw [hkeys]
    decide
  refine ⟨?_, ?_, ?_, ?_, ?_, ?_, ?_, ?_, ?_, ?_, ?_, ?_, ?_, ?_, ?_⟩
  · exact dgetOpt_applyWrites_at (mp3Writes meta cb) 0 "TIT2"
      (some (dgetD meta "title" (.vstr ""))) rfl hnod t0
  · exact dgetOpt_applyWrites_at (mp3Writes meta cb) 1 "TPE1"
      (some (dgetD meta "artist" (.vstr ""))) rfl hnod t0
  · exact dgetOpt_applyWrites_at (mp3Writes meta cb) 2 "TALB"
      (some (dgetD meta "album" (.vstr ""))) rfl hnod t0
  · intro hf
    have h := dgetOpt_applyWrites_at (mp3Writes meta cb) 3 "TPE2"
      (if (dget meta "album_artist").truthy then some (dget meta "album_artist") else none)
      rfl hnod t0
    simpa [hf] using h
  · intro ht
    have h := dgetOpt_applyWrites_at (mp3Writes meta cb) 3 "TPE2"
      (if (dget meta "album_artist").truthy then some (dget meta "album_artist") else none)
      rfl hnod t0
    simpa [ht] using h
  · intro hf
    have h := dgetOpt_applyWrites_at (mp3Writes meta cb) 4 "TRCK"
      (if dget meta "track_number" ≠ Val.vnone then
        some (.vstr (pyToString (dget meta "track_number"))) else none)
      rfl hnod t0
    simpa [hf] using h
  · intro ht
    have h := dgetOpt_applyWrites_at (mp3Writes meta cb) 4 "TRCK"
      (if dget meta "track_number" ≠ Val.vnone then
        some (.vstr (pyToString (dget meta "track_number"))) else none)
      rfl hnod t0
    simpa [ht] using h
  · intro hf
    have h := dgetOpt_applyWrites_at (mp3Writes meta cb) 5 "TPOS"
      (if dget meta "disc_number" ≠ Val.vnone then
        some (.vstr (pyToString (dget meta "disc_number"))) else none)
      rfl hnod t0
    simpa [hf] using h
  · intro ht
    have h := dgetOpt_applyWrites_at (mp3Writes meta cb) 5 "TPOS"
      (if dget meta "disc_number" ≠ Val.vnone then
        some (.vstr (pyToString (dget meta "disc_number"))) else none)
      rfl hnod t0
    simpa [ht] using h
  · intro hf
    have h := dgetOpt_applyWrites_at (mp3Writes meta cb) 6 "TDRC"
      (if (dget meta "release_date").truthy then
        some (.vstr (pyToString (dget meta "release_date"))) else none)
      rfl hnod t0
    simpa [hf] using h
  · intro ht
    have h := dgetOpt_applyWrites_at (mp3Writes meta cb) 6 "TDRC"
      (if (dget meta "release_date").truthy then
        some (.vstr (pyToString (dget meta "release_date"))) else none)
      rfl hnod t0
    simpa [ht] using h
  · intro hf
    have h := dgetOpt_applyWrites_at (mp3Writes meta cb) 7 "TCON"
      (if (dget meta "genre").truthy then some (dget meta "genre") else none)
      rfl hnod t0
    simpa [hf] using h
  · intro ht
    have h := dgetOpt_applyWrites_at (mp3Writes meta cb) 7 "TCON"
      (if (dget meta "genre").truthy then some (dget meta "genre") else none)
      rfl hnod t0
    simpa [ht] using h
  · intro n f hopen hsave
    unfold embedMp3
    rw [hopen, hsave]
  · intro ws hws
    obtain ⟨trknW, diskW, isrcW, urlW, hshape, htrk, hdsk⟩ := m4aWrites_ok_inv meta cb ws hws
    subst hshape
    have hnod4 : ((([ ("\xa9nam", some (pyOr (dgetD meta "title" (.vstr ""))  (.vstr ""))),
        ("\xa9ART", some (pyOr (dgetD meta "artist" (.vstr "")) (.vstr ""))),
        ("\xa9alb", some (pyOr (dgetD meta "album" (.vstr "")) (.vstr ""))),
        ("aART", if (dget meta "album_artist").truthy then some (dget meta "album_artist") else none),
        ("trkn", trknW), ("disk", diskW),
        ("\xa9day", if (dget meta "release_date").truthy then
            some (.vstr (pyToString (dget meta "release_date"))) else none),
        ("\xa9gen", if (dget meta "genre").truthy then some (dget meta "genre") else none),
        ("----:com.apple.iTunes:ISRC", isrcW),
        ("----:com.apple.iTunes:URL", urlW),
        ("----:com.apple.iTunes:POPM", if dget meta "popularity" ≠ Val.vnone then
            some (vsingleton (.vbytes (strUtf8Bytes (pyToString (dget meta "popularity"))))) else none),
        ("covr", covrWrite cb) ] : List (String × Option Val)).map Prod.fst)).Nodup := by
      have hkeys : (([ ("\xa9nam", some (pyOr (dgetD meta "title" (.vstr ""))  (.vstr ""))),
          ("\xa9ART", some (pyOr (dgetD meta "artist" (.vstr "")) (.vstr ""))),
          ("\xa9alb", some (pyOr (dgetD meta "album" (.vstr "")) (.vstr ""))),
          ("aART", if (dget meta "album_artist").truthy then some (dget meta "album_artist") else none),
          ("trkn", trknW), ("disk", diskW),
          ("\xa9day", if (dget meta "release_date").truthy then
              some (.vstr (pyToString (dget meta "release_date"))) else none),
          ("\xa9gen", if (dget meta "genre").truthy then some (dget meta "genre") else none),
          ("----:com.apple.iTunes:ISRC", isrcW),
          ("----:com.apple.iTunes:URL", urlW),
          ("----:com.apple.iTunes:POPM", if dget meta "popularity" ≠ Val.vnone then
              some (vsingleton (.vbytes (strUtf8Bytes (pyToString (dget meta "popularity"))))) else none),
          ("covr", covrWrite cb) ] : List (String × Option Val)).map Prod.fst)
          = ["\xa9nam", "\xa9ART", "\xa9alb", "aART", "trkn", "disk", "\xa9day", "\xa9gen",
             "----:com.apple.iTunes:ISRC", "----:com.apple.iTunes:URL",
             "----:com.apple.iTunes:POPM", "covr"] := rfl
      rw [hkeys]
      decide
    refine ⟨?_, ?_, ?_, ?_, ?_, ?_, ?_⟩
    · exact dgetOpt_applyWrites_at _ 0 "\xa9nam"
        (some (pyOr (dgetD meta "title" (.vstr "")) (.vstr ""))) rfl hnod4 t0
    · intro hf
      have h := dgetOpt_applyWrites_at _ 3 "aART"
        (if (dget meta "album_artist").truthy then some (dget meta "album_artist") else none)
        rfl hnod4 t0
      simpa [hf] using h
    · intro ht
      have h := dgetOpt_applyWrites_at _ 3 "aART"
        (if (dget meta "album_artist").truthy then some (dget meta "album_artist") else none)
        rfl hnod4 t0
      simpa [ht] using h
    · intro hv
      have htn := htrk hv
      subst htn
      have h := dgetOpt_applyWrites_at _ 4 "trkn" none rfl hnod4 t0
      simpa using h
    · intro hf
      have h := dgetOpt_applyWrites_at _ 6 "\xa9day"
        (if (dget meta "release_date").truthy then
          some (.vstr (pyToString (dget meta "release_date"))) else none)
        rfl hnod4 t0
      simpa [hf] using h
    · intro hf
      have h := dgetOpt_applyWrites_at _ 7 "\xa9gen"
        (if (dget meta "genre").truthy then some (dget meta "genre") else none)
        rfl hnod4 t0
      simpa [hf] using h
    · intro g hopen hsave
      unfold embedM4a
      rw [hopen, hws, hsave]

theorem embed_fields_guarded_witness :
    dgetOpt (applyWrites [("TPE2", Val.vstr "X")] (mp3Writes [] none)) "TPE2"
      = dgetOpt [("TPE2", Val.vstr "X")] "TPE2" :=
  (embed_fields_guarded [("TPE2", Val.vstr "X")] [] none).2.2.2.1 (by decide)

/-- C3: `_sanitize_for_embed` (main.py) is idempotent: running the
normalizer on already-normalized metadata returns it unchanged, so a second
normalization pass never alters the dictionary. -/
theorem sanitizeForEmbed_idem (m : PDict) :
    sanitizeForEmbed (sanitizeForEmbed m) = sanitizeForEmbed m := by
  have hnm : ∀ k : String, k ∉ sanitizeDropKeys → k ≠ "date" →
      dgetOpt (sanitizeForEmbed m) k = dgetOpt (numFix "disc_number" (numFix "track_number" (artistFix m))) k := by
    intro k hk hd
    show dgetOpt (dropNoneKeys (dateFix (numFix "disc_number" (numFix "track_number" (artistFix m)))) sanitizeDropKeys) k
        = dgetOpt (numFix "disc_number" (numFix "track_number" (artistFix m))) k
    rw [dgetOpt_dropNone_not_mem sanitizeDropKeys k hk,
      dgetOpt_dateFix_ne (numFix "disc_number" (numFix "track_number" (artistFix m))) k hd]
  have hte : (dget (sanitizeForEmbed m) "artist").truthy
      = (dget (sanitizeForEmbed m) "album_artist").truthy := by
    have ha := hnm "artist" (by decide) (by decide)
    have hb := hnm "album_artist" (by decide) (by decide)
    rw [dgetOpt_numFix_ne "disc_number" (numFix "track_number" (artistFix m)) "artist"
        (by decide),
      dgetOpt_numFix_ne "track_number" (artistFix m) "artist" (by decide)] at ha
    rw [dgetOpt_numFix_ne "disc_number" (numFix "track_number" (artistFix m)) "album_artist"
        (by decide),
      dgetOpt_numFix_ne "track_number" (artistFix m) "album_artist" (by decide)] at hb
    have h0 := artistFix_truthy_eq m
    simp only [dget, ha, hb]
    simpa [dget] using h0
  have htrk : dgetOpt (sanitizeForEmbed m) "track_number" = none ∨
      ∃ n : Int, dgetOpt (sanitizeForEmbed m) "track_number" = some (Val.vint n) := by
    have ha := hnm "track_number" (by decide) (by decide)
    rw [dgetOpt_numFix_ne "disc_number" (numFix "track_number" (artistFix m)) "track_number"
        (by decide)] at ha
    rw [ha]
    exact numFix_post "track_number" (artistFix m)
  have hdsc : dgetOpt (sanitizeForEmbed m) "disc_number" = none ∨
      ∃ n : Int, dgetOpt (sanitizeForEmbed m) "disc_number" = some (Val.vint n) := by
    have ha := hnm "disc_number" (by decide) (by decide)
    rw [ha]
    exact numFix_post "disc_number" (numFix "track_number" (artistFix m))
  have hrd : dget (sanitizeForEmbed m) "release_date" = dget (numFix "disc_number" (numFix "track_number" (artistFix m))) "release_date" := by
    have ha := hnm "release_date" (by decide) (by decide)
    simp [dget, ha]
  have hDF : dateFix (sanitizeForEmbed m) = sanitizeForEmbed m := by
    cases hyr : yearFrom (pyOr (dget (numFix "disc_number" (numFix "track_number" (artistFix m))) "release_date") (dget (numFix "disc_number" (numFix "track_number" (artistFix m))) "date")) with
    | none =>
      have hm4 : dateFix (numFix "disc_number" (numFix "track_number" (artistFix m))) = numFix "disc_number" (numFix "track_number" (artistFix m)) := by
        unfold dateFix
        rw [hyr]
      have hdate : dget (sanitizeForEmbed m) "date" = dget (numFix "disc_number" (numFix "track_number" (artistFix m))) "date" := by
        show dget (dropNoneKeys (dateFix (numFix "disc_number" (numFix "track_number" (artistFix m)))) sanitizeDropKeys) "date" = dget (numFix "disc_number" (numFix "track_number" (artistFix m))) "date"
        rw [dget_dropNone_not_mem sanitizeDropKeys "date" (by decide), hm4]
      unfold dateFix
      rw [hrd, hdate, hyr]
    | some y =>
      by_cases hy0 : y = ""
      · have hm4 : dateFix (numFix "disc_number" (numFix "track_number" (artistFix m))) = numFix "disc_number" (numFix "track_number" (artistFix m)) := by
          unfold dateFix
          rw [hyr]
          show (if y ≠ "" then dset (numFix "disc_number" (numFix "track_number" (artistFix m))) "date" (Val.vstr y) else numFix "disc_number" (numFix "track_number" (artistFix m))) = numFix "disc_number" (numFix "track_number" (artistFix m))
          rw [if_neg (by simp [hy0])]
        have hdate : dget (sanitizeForEmbed m) "date" = dget (numFix "disc_number" (numFix "track_number" (artistFix m))) "date" := by
          show dget (dropNoneKeys (dateFix (numFix "disc_number" (numFix "track_number" (artistFix m)))) sanitizeDropKeys) "date" = dget (numFix "disc_number" (numFix "track_number" (artistFix m))) "date"
          rw [dget_dropNone_not_mem sanitizeDropKeys "date" (by decide), hm4]
        unfold dateFix
        rw [hrd, hdate, hyr]
        show (if y ≠ "" then dset (sanitizeForEmbed m) "date" (Val.vstr y)
            else sanitizeForEmbed m) = sanitizeForEmbed m
        rw [if_neg (by simp [hy0])]
      · have hm4 : dateFix (numFix "disc_number" (numFix "track_number" (artistFix m))) = dset (numFix "disc_number" (numFix "track_number" (artistFix m))) "date" (Val.vstr y) := by
          unfold dateFix
          rw [hyr]
          show (if y ≠ "" then dset (numFix "disc_number" (numFix "track_number" (artistFix m))) "date" (Val.vstr y) else numFix "disc_number" (numFix "track_number" (artistFix m)))
              = dset (numFix "disc_number" (numFix "track_number" (artistFix m))) "date" (Val.vstr y)
          rw [if_pos hy0]
        have hdateOpt : dgetOpt (sanitizeForEmbed m) "date" = some (Val.vstr y) := by
          show dgetOpt (dropNoneKeys (dateFix (numFix "disc_number" (numFix "track_number" (artistFix m)))) sanitizeDropKeys) "date"
              = some (Val.vstr y)
          rw [dgetOpt_dropNone_not_mem sanitizeDropKeys "date" (by decide), hm4,
            dgetOpt_dset_self]
        have hdate : dget (sanitizeForEmbed m) "date" = Val.vstr y := by
          simp [dget, hdateOpt]
        unfold dateFix
        rw [hrd, hdate]
        by_cases hrt : (dget (numFix "disc_number" (numFix "track_number" (artistFix m))) "release_date").truthy = true
        · have hpy : pyOr (dget (numFix "disc_number" (numFix "track_number" (artistFix m))) "release_date") (Val.vstr y)
              = dget (numFix "disc_number" (numFix "track_number" (artistFix m))) "release_date" := by
            simp [Val.pyOr, hrt]
          have hpy1 : pyOr (dget (numFix "disc_number" (numFix "track_number" (artistFix m))) "release_date") (dget (numFix "disc_number" (numFix "track_number" (artistFix m))) "date")
              = dget (numFix "disc_number" (numFix "track_number" (artistFix m))) "release_date" := by
            simp [Val.pyOr, hrt]
          rw [hpy1] at hyr
          rw [hpy, hyr]
          show (if y ≠ "" then dset (sanitizeForEmbed m) "date" (Val.vstr y)
              else sanitizeForEmbed m) = sanitizeForEmbed m
          rw [if_pos hy0]
          exact dset_dgetOpt_self (sanitizeForEmbed m) "date" (Val.vstr y) hdateOpt
        · have hpy : pyOr (dget (numFix "disc_number" (numFix "track_number" (artistFix m))) "release_date") (Val.vstr y) = Val.vstr y := by
            simp [Val.pyOr, hrt]
          have hpy1 : pyOr (dget (numFix "disc_number" (numFix "track_number" (artistFix m))) "release_date") (dget (numFix "disc_number" (numFix "track_number" (artistFix m))) "date")
              = dget (numFix "disc_number" (numFix "track_number" (artistFix m))) "date" := by
            simp [Val.pyOr, hrt]
          rw [hpy1] at hyr
          have hyy : yearFrom (Val.vstr y) = some y :=
            yearFrom_self (dget (numFix "disc_number" (numFix "track_number" (artistFix m))) "date") y hyr
          rw [hpy, hyy]
          show (if y ≠ "" then dset (sanitizeForEmbed m) "date" (Val.vstr y)
              else sanitizeForEmbed m) = sanitizeForEmbed m
          rw [if_pos hy0]
          exact dset_dgetOpt_self (sanitizeForEmbed m) "date" (Val.vstr y) hdateOpt
  have hdrop : dropNoneKeys (sanitizeForEmbed m) sanitizeDropKeys = sanitizeForEmbed m := by
    apply dropNone_id
    intro k hk
    show dgetOpt (dropNoneKeys (dateFix (numFix "disc_number" (numFix "track_number" (artistFix m)))) sanitizeDropKeys) k ≠ some Val.vnone
    exact dropNone_post sanitizeDropKeys k hk (dateFix (numFix "disc_number" (numFix "track_number" (artistFix m))))
  have hA : artistFix (sanitizeForEmbed m) = sanitizeForEmbed m :=
    artistFix_id (sanitizeForEmbed m) hte
  have hT : numFix "track_number" (sanitizeForEmbed m) = sanitizeForEmbed m :=
    numFix_id "track_number" (sanitizeForEmbed m) htrk
  have hD : numFix "disc_number" (sanitizeForEmbed m) = sanitizeForEmbed m :=
    numFix_id "disc_number" (sanitizeForEmbed m) hdsc
  show dropNoneKeys (dateFix (numFix "disc_number" (numFix "track_number"
      (artistFix (sanitizeForEmbed m))))) sanitizeDropKeys = sanitizeForEmbed m
  rw [hA, hT, hD, hDF, hdrop]

end MusicBot
